import Mathlib

/-!
# Verification of the throat server-side domain logic (app/misc.py, app/views/api3.py)

This file gives a shallow embedding of the parts of the code that the
claims C1..C10 are about, and settles each claim against it.

Conventions:
* Database rows are Lean structures; tables are `List`s of rows; peewee
  `Model.get`/`select().get()` becomes `List.find?` (first matching row),
  `Model.update(...).where(...)` becomes a `List.map` that rewrites every
  matching row, `Model.create` appends a row.
* Timestamps are integers (seconds); `datetime.utcnow()` is an explicit
  `now` argument; `timedelta(days=n)` is `n * 86400` seconds.
* `uid`, `pid`, `sid`, `cid` identifiers are natural numbers (comment cids
  are UUID strings in the code; only their identity is used, so naturals
  stand in for them).
* `socketio.emit` calls touch no stored state and are not modelled.
* Functions return a result together with the updated database, so no-change
  claims can be stated as equality of databases.
-/

namespace Throat

/-! ## Captcha (misc.py: `captchas_required`, `create_captcha`, `validate_captcha`)

The redis store `rconn` holds `('cap-' ++ token, answer)` pairs; expiry is not
modelled (all claims are about attempts within a token's lifetime).
-/

/-- An association store modelling the `rconn` key/value pairs. -/
abbrev KVStore := List (String × String)

def kvGet (st : KVStore) (k : String) : Option String :=
  (st.find? (fun p => p.1 = k)).map (·.2)

def kvDelete (st : KVStore) (k : String) : KVStore :=
  st.filter (fun p => p.1 ≠ k)

def kvSet (st : KVStore) (k v : String) : KVStore :=
  (k, v) :: kvDelete st k

/-- ASCII lower-casing standing in for Python `str.lower()` and SQL
`fn.Lower` (kernel-computable; every name compared here is ASCII). -/
def lowerStr (s : String) : String := String.mk (s.toList.map Char.toLower)

/-- The answer normalization from `create_captcha` / `validate_captcha`:
`.replace(' ', '').replace('0', 'o')` — both patterns are single characters,
so this is dropping every space and mapping '0' to 'o'. -/
def capNormalize (s : String) : String :=
  String.mk ((s.toList.filter (fun c => c ≠ ' ')).map (fun c => if c = '0' then 'o' else c))

/-- `create_captcha` (misc.py 1444-1465): if captchas are not required it
returns `None`; otherwise it stores the normalized answer under
`'cap-' + token` and returns the token.  The random choice of the puzzle
word and the token, and the rendered image, are inputs/outputs we abstract
over (`token`, `word`). -/
def create_captcha (required : Bool) (st : KVStore) (token word : String) :
    Option String × KVStore :=
  if !required then (none, st)
  else (some token, kvSet st ("cap-" ++ token) (capNormalize word))

/-- `validate_captcha` (misc.py 1468-1477).  Returns the verdict and the
updated store (the token is deleted on any attempt that found it). -/
def validate_captcha (testing development required : Bool) (st : KVStore)
    (token response : String) : Bool × KVStore :=
  if testing || development || !required then (true, st)
  else
    match kvGet st ("cap-" ++ token) with
    | some cap =>
        let response := capNormalize response
        let st' := kvDelete st ("cap-" ++ token)
        (lowerStr cap = lowerStr response, st')
    | none => (false, st)

/-! ### C7 lemmas -/

theorem kvGet_kvDelete (st : KVStore) (k : String) :
    kvGet (kvDelete st k) k = none := by
  simp [kvGet, kvDelete, List.find?_filter]

/-- C7: For every issued captcha token, validation succeeds at most once: an
attempt succeeds iff the stored token exists and the normalized response
(spaces removed, digit '0' treated as letter 'o', case-insensitive) equals the
stored answer; the token is consumed on any validation attempt that found it,
so every later attempt with the same token fails; and validation always
succeeds in testing/development mode or when captchas are disabled. -/
theorem claim_C7 (testing development required : Bool) (st : KVStore)
    (token response response' : String) :
    -- bypass: testing/development mode or captchas globally disabled
    ((testing || development || !required) = true →
      (validate_captcha testing development required st token response).1 = true) ∧
    -- otherwise an attempt succeeds iff the token is stored and the
    -- normalized response matches the stored answer
    ((testing || development || !required) = false →
      ((validate_captcha testing development required st token response).1 = true ↔
        ∃ cap, kvGet st ("cap-" ++ token) = some cap ∧
          lowerStr cap = lowerStr (capNormalize response))) ∧
    -- single use: after any attempt, a second attempt with the same token fails
    ((testing || development || !required) = false →
      (validate_captcha testing development required
        (validate_captcha testing development required st token response).2
        token response').1 = false) := by
  refine ⟨fun h => by simp [validate_captcha, h], fun h => ?_, fun h => ?_⟩
  · simp only [validate_captcha, h, if_false, Bool.false_eq_true]
    cases hc : kvGet st ("cap-" ++ token) with
    | none => simp
    | some cap => simp [decide_eq_true_eq]
  · simp only [validate_captcha, h, if_false, Bool.false_eq_true]
    cases hc : kvGet st ("cap-" ++ token) with
    | none => simp [hc]
    | some cap => simp [hc, kvGet_kvDelete]

/-- Witness for C7 at a concrete store: token "t1" with stored answer "see me"
normalized to "seeme"; the response "SEE ME" succeeds once and the retry
fails. -/
theorem claim_C7_witness :
    ((false || false || !true) = true →
      (validate_captcha false false true [("cap-t1", "seeme")] "t1" "SEE ME").1 = true) ∧
    ((false || false || !true) = false →
      ((validate_captcha false false true [("cap-t1", "seeme")] "t1" "SEE ME").1 = true ↔
        ∃ cap, kvGet [("cap-t1", "seeme")] ("cap-" ++ "t1") = some cap ∧
          lowerStr cap = lowerStr (capNormalize "SEE ME"))) ∧
    ((false || false || !true) = false →
      (validate_captcha false false true
        (validate_captcha false false true [("cap-t1", "seeme")] "t1" "SEE ME").2
        "t1" "seeme").1 = false) :=
  claim_C7 false false true [("cap-t1", "seeme")] "t1" "SEE ME" "seeme"

/-! ## Threaded comment assembly and trimming (misc.py: `get_comment_tree`)

`get_comment_tree` receives the flat list of `(cid, parentcid)` pairs,
builds the nested tree with `build_tree`, and then trims it with
`recursive_check`.  We model the shape-determining part (steps 2 and 3 of the
function); step 4 only populates the already-fixed shape with row data.
Comment cids (UUID strings) are represented by naturals.
-/

/-- One `(cid, parentcid)` input row for `get_comment_tree`. -/
structure CEntry where
  cid : Nat
  parentcid : Option Nat
deriving DecidableEq, Repr

/-- A node of the assembled tree: either a real comment (a dict with `cid` and
`children` in the code) or a `{'cid': None, 'more': ..., 'key': ..., 'pcid': ...}`
"load more" marker (`key` is absent on the depth-collapse marker, modelled as
`none`). -/
inductive CTree where
  | node (cid : Nat) (parentcid : Option Nat) (children : List CTree)
  | more (count : Nat) (key : Option Nat) (pcid : Option Nat)
deriving Repr

/-- Python's `list.remove`: removes the first occurrence. -/
def removeFirst : List CEntry → CEntry → List CEntry
  | [], _ => []
  | x :: xs, e => if x = e then xs else x :: removeFirst xs e

theorem length_removeFirst_lt {l : List CEntry} {e : CEntry} (h : e ∈ l) :
    (removeFirst l e).length < l.length := by
  induction l with
  | nil => cases h
  | cons x xs ih =>
      by_cases hx : x = e
      · simp [removeFirst, hx]
      · have : e ∈ xs := by
          rcases List.mem_cons.mp h with h1 | h1
          · exact absurd h1.symm hx
          · exact h1
        simp only [removeFirst, if_neg hx, List.length_cons]
        exact Nat.succ_lt_succ (ih this)

/-- `build_tree` (misc.py 1501-1509).  The Python iterates over a snapshot
(`tuff[::]`) of the shared list while removing each matched entry from the
live list (`tuff.remove(i)`) before recursing into its children, so later
siblings only see the entries not yet consumed.  `snapshot` is the copy being
iterated and `pool` the live list; both start as the full comment list.  The
`e ∈ pool` guard mirrors `list.remove`'s precondition: with distinct rows
(cid is a primary key) a matched snapshot entry is always still in the pool;
on pathological duplicate rows Python would raise `ValueError` instead.
The returned pool carries a length bound used for termination. -/
def build_tree (snapshot pool : List CEntry) (rootcid : Option Nat) :
    List CTree × { p : List CEntry // p.length ≤ pool.length } :=
  match snapshot with
  | [] => ([], ⟨pool, Nat.le_refl _⟩)
  | e :: rest =>
    if h : e.parentcid = rootcid ∧ e ∈ pool then
      match build_tree (removeFirst pool e) (removeFirst pool e) (some e.cid) with
      | (children, ⟨pool2, h2⟩) =>
        match build_tree rest pool2 rootcid with
        | (sibs, ⟨pool3, h3⟩) =>
          (CTree.node e.cid e.parentcid children :: sibs,
           ⟨pool3, le_trans h3 (le_trans h2 (le_of_lt (length_removeFirst_lt h.2)))⟩)
    else
      build_tree rest pool rootcid
termination_by (pool.length, snapshot.length)
decreasing_by
  all_goals first
    | exact Prod.Lex.left _ _ (length_removeFirst_lt h.2)
    | exact Prod.Lex.left _ _ (lt_of_le_of_lt h2 (length_removeFirst_lt h.2))
    | exact Prod.Lex.right _ (by omega)
    | (simp_wf; omega)

/-- Step 2 of `get_comment_tree`: `comment_tree = build_tree(list(comments))`. -/
def assembled_tree (comments : List CEntry) : List CTree :=
  (build_tree comments comments none).1

/-- The `'cid'` entry of a tree dict (markers carry `None`). -/
def cidOf : CTree → Option Nat
  | .node c _ _ => some c
  | .more _ _ _ => none

/-- `tree[-1]['cid']` for the `key` of a sibling "more" marker. -/
def lastCid (l : List CTree) : Option Nat :=
  match l.getLast? with
  | some t => cidOf t
  | none => none

/-- How many siblings are kept at a level: `tree[:6] if depth > 0 else tree[:11]`. -/
def sibKeep (depth : Nat) : Nat := if depth > 0 then 6 else 11

/-- The sibling-trimming step of `recursive_check` (misc.py 1562-1565):
when a level has more than 5 siblings below the top (or more than 10 at the
top), keep the first 6 (resp. 11) and append a "more" marker whenever
anything was cut. -/
def trimSiblings (depth : Nat) (pcid : Option Nat) (tree : List CTree) : List CTree :=
  if (tree.length > 5 ∧ depth > 0) ∨ tree.length > 10 then
    let kept := tree.take (sibKeep depth)
    if tree.length - kept.length > 0 then
      kept ++ [CTree.more (tree.length - kept.length) (lastCid kept) pcid]
    else kept
  else tree

theorem mem_trimSiblings {t : CTree} {depth : Nat} {pcid : Option Nat} {l : List CTree}
    (h : t ∈ trimSiblings depth pcid l) :
    t ∈ l ∨ ∃ n k, t = CTree.more n k pcid := by
  unfold trimSiblings at h
  split at h
  · simp only at h
    split at h
    · rcases List.mem_append.mp h with h1 | h1
      · exact Or.inl (List.mem_of_mem_take h1)
      · simp only [List.mem_singleton] at h1
        exact Or.inr ⟨_, _, h1⟩
    · exact Or.inl (List.mem_of_mem_take h)
  · exact Or.inl h

/-- The `only_after` cursor handling at the head of `recursive_check`
(misc.py 1551-1559): before applying limits, drop everything up to and
including the sibling named by `only_after`, once (`trimmedtree` records that
the cursor was already applied). -/
def cursorTrim (onlyAfter : Option Nat) (trimmedtree : Bool) (tree : List CTree) :
    List CTree × Bool :=
  match onlyAfter, trimmedtree with
  | some oa, false =>
    match tree.findIdx? (fun t => cidOf t = some oa) with
    | some i => (tree.drop (i + 1), true)
    | none => (tree, false)
  | _, _ => (tree, trimmedtree)

theorem mem_cursorTrim {t : CTree} {oa : Option Nat} {tt : Bool} {l : List CTree}
    (h : t ∈ (cursorTrim oa tt l).1) : t ∈ l := by
  unfold cursorTrim at h
  rcases oa with _ | oa <;> rcases tt <;> simp at h <;> try exact h
  rcases hfi : l.findIdx? (fun t => cidOf t = some oa) with _ | i <;>
    rw [hfi] at h <;> simp at h
  · exact h
  · exact List.mem_of_mem_drop h

/-- `recursive_check` (misc.py 1548-1573): apply the `only_after` cursor,
collapse everything below depth 3 into a single counted marker, trim each
level's siblings, and recurse into the children of the surviving nodes. -/
def recursive_check (onlyAfter : Option Nat) (depth : Nat) (trimmedtree : Bool)
    (pcid : Option Nat) (tree : List CTree) : List CTree :=
  if depth > 3 then
    if (cursorTrim onlyAfter trimmedtree tree).1.isEmpty then []
    else [CTree.more (cursorTrim onlyAfter trimmedtree tree).1.length none pcid]
  else
    (trimSiblings depth pcid (cursorTrim onlyAfter trimmedtree tree).1).attach.map
      (fun x =>
        match x with
        | ⟨CTree.node c p ch, _⟩ =>
            CTree.node c p
              (recursive_check onlyAfter (depth + 1)
                (cursorTrim onlyAfter trimmedtree tree).2 (some c) ch)
        | ⟨CTree.more n k q, _⟩ => CTree.more n k q)
termination_by sizeOf tree
decreasing_by
  rename_i ht
  rcases mem_trimSiblings ht with h1 | ⟨n, k, h1⟩
  · have h2 := mem_cursorTrim h1
    have h3 := List.sizeOf_lt_of_mem h2
    simp only [CTree.node.sizeOf_spec] at h3
    omega
  · cases h1

/-- The basic invocation of `get_comment_tree` (no `root`, no `only_after`,
no sticky comment): assemble the bare tree from the flat pairs and trim it. -/
def get_comment_tree_shape (comments : List CEntry) : List CTree :=
  recursive_check none 0 false none (assembled_tree comments)

/-! ### C5: specification predicates (from the claim's wording) and proofs -/

/-- A "live" entry of a level is a real comment; a marker is not. -/
def isLive : CTree → Bool
  | .node _ _ _ => true
  | .more _ _ _ => false

/-- Number of live (non-marker) siblings in a level. -/
def liveCount (l : List CTree) : Nat := (l.filter isLive).length

/-- The claim's live-sibling cap: 11 at depth 0, 6 at every deeper level. -/
def sibCap (depth : Nat) : Nat := if depth = 0 then 11 else 6

mutual
/-- No live node of this tree sits at depth greater than 3 (counting the
root's own level as `d`). -/
def treeDepthOk : Nat → CTree → Bool
  | d, .node _ _ ch => decide (d ≤ 3) && forestDepthOk (d + 1) ch
  | _, .more _ _ _ => true
/-- `treeDepthOk` over a sibling list. -/
def forestDepthOk : Nat → List CTree → Bool
  | _, [] => true
  | d, t :: ts => treeDepthOk d t && forestDepthOk d ts
end

mutual
/-- Every sibling list strictly below this node respects the live-sibling cap. -/
def treeBreadthOk : Nat → CTree → Bool
  | d, .node _ _ ch => decide (liveCount ch ≤ sibCap (d + 1)) && forestBreadthOk (d + 1) ch
  | _, .more _ _ _ => true
/-- `treeBreadthOk` over a sibling list (the list's own cap is checked by the caller). -/
def forestBreadthOk : Nat → List CTree → Bool
  | _, [] => true
  | d, t :: ts => treeBreadthOk d t && forestBreadthOk d ts
end

theorem forestDepthOk_eq_all (d : Nat) (l : List CTree) :
    forestDepthOk d l = l.all (treeDepthOk d) := by
  induction l with
  | nil => rfl
  | cons t ts ih => simp [forestDepthOk, ih]

theorem forestBreadthOk_eq_all (d : Nat) (l : List CTree) :
    forestBreadthOk d l = l.all (treeBreadthOk d) := by
  induction l with
  | nil => rfl
  | cons t ts ih => simp [forestBreadthOk, ih]

/-- The per-node action of `recursive_check` on a surviving sibling. -/
def rcStep (oa : Option Nat) (depth : Nat) (tt : Bool) : CTree → CTree
  | .node c p ch => .node c p (recursive_check oa (depth + 1) tt (some c) ch)
  | .more n k q => .more n k q

theorem attach_map_eq {α β : Type _} (l : List α) (f : {x // x ∈ l} → β) (g : α → β)
    (h : ∀ x (hx : x ∈ l), f ⟨x, hx⟩ = g x) : l.attach.map f = l.map g := by
  calc l.attach.map f = l.attach.map (fun x => g x.1) := by
        apply List.map_congr_left
        intro x _
        exact h x.1 x.2
    _ = (l.attach.map Subtype.val).map g := by rw [List.map_map]; rfl
    _ = l.map g := by rw [List.attach_map_subtype_val]

theorem cursorTrim_none (tt : Bool) (l : List CTree) : cursorTrim none tt l = (l, tt) := by
  cases tt <;> rfl

theorem rc_eq_map (oa : Option Nat) (depth : Nat) (tt : Bool) (pcid : Option Nat)
    (tree : List CTree) (hd : ¬ depth > 3) :
    recursive_check oa depth tt pcid tree =
      (trimSiblings depth pcid (cursorTrim oa tt tree).1).map
        (rcStep oa depth (cursorTrim oa tt tree).2) := by
  rw [recursive_check, if_neg hd]
  exact attach_map_eq _ _ _ (fun t ht => by cases t <;> rfl)

theorem rc_collapse_deep (d : Nat) (tt : Bool) (pcid : Option Nat) (tree : List CTree)
    (hd : 3 < d) :
    recursive_check none d tt pcid tree =
      if tree.isEmpty then [] else [CTree.more tree.length none pcid] := by
  rw [recursive_check, if_pos hd, cursorTrim_none]

theorem isLive_rcStep (oa : Option Nat) (d : Nat) (tt : Bool) (t : CTree) :
    isLive (rcStep oa d tt t) = isLive t := by
  cases t <;> rfl

theorem liveCount_map_rcStep (oa : Option Nat) (d : Nat) (tt : Bool) (l : List CTree) :
    liveCount (l.map (rcStep oa d tt)) = liveCount l := by
  induction l with
  | nil => rfl
  | cons t ts ih =>
      simp only [List.map_cons, liveCount, List.filter_cons, isLive_rcStep] at ih ⊢
      split <;> simp_all [liveCount]

theorem liveCount_append (l1 l2 : List CTree) :
    liveCount (l1 ++ l2) = liveCount l1 + liveCount l2 := by
  simp [liveCount, List.filter_append]

theorem liveCount_le_length (l : List CTree) : liveCount l ≤ l.length :=
  List.length_filter_le _ l

theorem sibKeep_eq_sibCap (d : Nat) : sibKeep d = sibCap d := by
  rcases d with _ | d <;> simp [sibKeep, sibCap]

theorem liveCount_more_nil (n : Nat) (k p : Option Nat) :
    liveCount [CTree.more n k p] = 0 := rfl

theorem liveCount_trimSiblings_le (d : Nat) (pcid : Option Nat) (l : List CTree) :
    liveCount (trimSiblings d pcid l) ≤ sibCap d := by
  unfold trimSiblings
  split
  · simp only
    have h1 : liveCount (l.take (sibKeep d)) ≤ sibCap d := by
      calc liveCount (l.take (sibKeep d)) ≤ (l.take (sibKeep d)).length :=
            liveCount_le_length _
        _ ≤ sibKeep d := by rw [List.length_take]; omega
        _ = sibCap d := sibKeep_eq_sibCap d
    split
    · rw [liveCount_append, liveCount_more_nil]
      omega
    · exact h1
  · next hcond =>
      push_neg at hcond
      have h1 := liveCount_le_length l
      have h2 := hcond.2
      rcases d with _ | d
      · have h4 : sibCap 0 = 11 := rfl
        omega
      · have h3 : l.length ≤ 5 := by
          by_contra hgt
          have := hcond.1 (by omega)
          omega
        have h4 : sibCap (d + 1) = 6 := rfl
        omega

theorem rc_ok (n : Nat) :
    ∀ (tree : List CTree), sizeOf tree ≤ n → ∀ (d : Nat) (tt : Bool) (pcid : Option Nat),
      forestDepthOk d (recursive_check none d tt pcid tree) = true ∧
      liveCount (recursive_check none d tt pcid tree) ≤ sibCap d ∧
      forestBreadthOk d (recursive_check none d tt pcid tree) = true := by
  induction n with
  | zero =>
      intro tree h
      exfalso
      cases tree <;> simp at h
  | succ n ih =>
      intro tree hsz d tt pcid
      by_cases hd : d > 3
      · rw [rc_collapse_deep _ _ _ _ hd]
        split <;>
          simp [forestDepthOk, forestBreadthOk, treeDepthOk, treeBreadthOk, liveCount,
            List.filter, isLive]
      · rw [rc_eq_map _ _ _ _ _ hd, cursorTrim_none]
        simp only
        have hmem : ∀ t ∈ trimSiblings d pcid tree, ∀ c p ch, t = CTree.node c p ch →
            sizeOf ch ≤ n := by
          intro t ht c p ch hte
          rcases mem_trimSiblings ht with h1 | ⟨m, k, h1⟩
          · subst hte
            have := List.sizeOf_lt_of_mem h1
            simp only [CTree.node.sizeOf_spec] at this
            omega
          · subst hte; cases h1
        refine ⟨?_, ?_, ?_⟩
        · rw [forestDepthOk_eq_all, List.all_eq_true]
          intro y hy
          rcases List.mem_map.mp hy with ⟨t, ht, rfl⟩
          cases t with
          | more m k q => rfl
          | node c p ch =>
              have hch := hmem _ ht c p ch rfl
              have hrec := ih ch hch (d + 1) tt (some c)
              simp [rcStep, treeDepthOk, Nat.le_of_not_lt hd, hrec.1]
        · rw [liveCount_map_rcStep]
          exact liveCount_trimSiblings_le _ _ _
        · rw [forestBreadthOk_eq_all, List.all_eq_true]
          intro y hy
          rcases List.mem_map.mp hy with ⟨t, ht, rfl⟩
          cases t with
          | more m k q => rfl
          | node c p ch =>
              have hch := hmem _ ht c p ch rfl
              have hrec := ih ch hch (d + 1) tt (some c)
              simp [rcStep, treeBreadthOk, hrec.2.1, hrec.2.2]

theorem rc_trailing_marker (d : Nat) (tt : Bool) (pcid : Option Nat) (tree : List CTree)
    (hd : ¬ d > 3) (hlen : sibKeep d < tree.length) :
    (recursive_check none d tt pcid tree).getLast? =
        some (CTree.more (tree.length - sibKeep d)
          (lastCid (tree.take (sibKeep d))) pcid) ∧
    liveCount (recursive_check none d tt pcid tree) = liveCount (tree.take (sibKeep d)) := by
  rw [rc_eq_map _ _ _ _ _ hd, cursorTrim_none]
  simp only
  have hcond : (tree.length > 5 ∧ d > 0) ∨ tree.length > 10 := by
    rcases d with _ | d
    · have : sibKeep 0 = 11 := rfl
      right; omega
    · left
      have : sibKeep (d + 1) = 6 := by simp [sibKeep]
      constructor
      · omega
      · omega
  unfold trimSiblings
  rw [if_pos hcond]
  simp only
  have hkl : (tree.take (sibKeep d)).length = sibKeep d := by
    rw [List.length_take]; omega
  have hdiff : tree.length - (tree.take (sibKeep d)).length > 0 := by
    rw [hkl]; omega
  rw [if_pos hdiff, List.map_append]
  constructor
  · rw [hkl]
    simp [rcStep]
  · rw [liveCount_append, liveCount_map_rcStep]
    simp [rcStep, liveCount_more_nil]

theorem rc_no_marker (d : Nat) (tt : Bool) (pcid : Option Nat) (tree : List CTree)
    (hd : ¬ d > 3) (hlen : tree.length ≤ sibKeep d) :
    liveCount (recursive_check none d tt pcid tree) = liveCount tree := by
  rw [rc_eq_map _ _ _ _ _ hd, cursorTrim_none]
  simp only
  unfold trimSiblings
  split
  · simp only
    have htake : tree.take (sibKeep d) = tree := List.take_of_length_le hlen
    rw [htake, if_neg (by omega), liveCount_map_rcStep]
  · rw [liveCount_map_rcStep]

/-- C5: For every flat list of (cid, parentcid) pairs, the assembled and
trimmed comment tree contains no live node at depth greater than 3 (a level
below depth 3 is replaced by a single "more" marker counting the comments of
that level), no more than 11 live siblings at depth 0 and no more than 6 at
every deeper level, and wherever siblings are collapsed the trailing "more"
marker's count equals the number of omitted siblings (and exactly the first
cap-many siblings stay live).  Parts (c)-(e) state this per level for
`recursive_check`, which is applied verbatim to every level of the
assembled tree. -/
theorem claim_C5 (comments : List CEntry) :
    -- (a) no live node deeper than depth 3 in the assembled, trimmed tree
    forestDepthOk 0 (get_comment_tree_shape comments) = true ∧
    -- (b) live-sibling caps hold at the top level and every deeper level
    (liveCount (get_comment_tree_shape comments) ≤ sibCap 0 ∧
      forestBreadthOk 0 (get_comment_tree_shape comments) = true) ∧
    -- (c) below depth 3, a level collapses to one marker carrying its count
    (∀ (d : Nat) (tt : Bool) (pcid : Option Nat) (tree : List CTree), 3 < d →
      recursive_check none d tt pcid tree =
        if tree.isEmpty then [] else [CTree.more tree.length none pcid]) ∧
    -- (d) a trimmed level ends in a marker counting the omitted siblings
    (∀ (d : Nat) (tt : Bool) (pcid : Option Nat) (tree : List CTree),
      d ≤ 3 → sibKeep d < tree.length →
      (recursive_check none d tt pcid tree).getLast? =
          some (CTree.more (tree.length - sibKeep d)
            (lastCid (tree.take (sibKeep d))) pcid) ∧
      liveCount (recursive_check none d tt pcid tree) =
        liveCount (tree.take (sibKeep d))) ∧
    -- (e) an untrimmed level keeps all its live siblings
    (∀ (d : Nat) (tt : Bool) (pcid : Option Nat) (tree : List CTree),
      d ≤ 3 → tree.length ≤ sibKeep d →
      liveCount (recursive_check none d tt pcid tree) = liveCount tree) := by
  refine ⟨(rc_ok _ _ (le_refl _) 0 false none).1,
    ⟨(rc_ok _ _ (le_refl _) 0 false none).2.1, (rc_ok _ _ (le_refl _) 0 false none).2.2⟩,
    fun d tt pcid tree hd => rc_collapse_deep d tt pcid tree hd,
    fun d tt pcid tree hd hlen => rc_trailing_marker d tt pcid tree (by omega) hlen,
    fun d tt pcid tree hd hlen => rc_no_marker d tt pcid tree (by omega) hlen⟩

/-! ## Data model (§3 of the schema; the rows the modelled functions touch) -/

/-- A `User` row (the fields used by the functions modelled here). -/
structure UserR where
  uid : Nat
  name : String
  status : Nat
  score : Int
  given : Int
  crypto : Nat
  password : String
deriving DecidableEq, Repr

/-- A `Sub` row. -/
structure SubR where
  sid : Nat
  name : String
  posts : Int
deriving DecidableEq, Repr

/-- A `SubPost` row. -/
structure PostR where
  pid : Nat
  sid : Nat
  uid : Nat
  title : String
  content : Option String
  link : Option String
  ptype : Nat
  nsfw : Bool
  deleted : Nat
  score : Int
  upvotes : Int
  downvotes : Int
  comments : Int
  posted : Int
  thumbnail : String
deriving DecidableEq, Repr

/-- A `SubPostComment` row (cids modelled as naturals). -/
structure CommentR where
  cid : Nat
  pid : Nat
  uid : Nat
  content : String
  parentcid : Option Nat
  score : Int
  upvotes : Int
  downvotes : Int
  status : Option Nat
  time : Int
  lastedit : Option Int
deriving DecidableEq, Repr

/-- A `SubPostVote` row. -/
structure PostVoteR where
  pid : Nat
  uid : Nat
  positive : Bool
deriving DecidableEq, Repr

/-- A `SubPostCommentVote` row. -/
structure CommentVoteR where
  cid : Nat
  uid : Nat
  positive : Bool
deriving DecidableEq, Repr

/-- A `SubBan` row. -/
structure SubBanR where
  sid : Nat
  uid : Nat
  effective : Bool
  expires : Option Int
deriving DecidableEq, Repr

/-- A `Message` row. -/
structure MessageR where
  sentby : Nat
  receivedby : Nat
  subject : String
  content : String
  mlink : Option Nat
  mtype : Nat
  posted : Int
deriving DecidableEq, Repr

/-- A `Notification` row. -/
structure NotificationR where
  ntype : String
  sub : Nat
  post : Nat
  comment : Option Nat
  sender : Nat
  target : Nat
deriving DecidableEq, Repr

/-- The stored state the modelled endpoints read and write.  Key/value
metadata tables are `(owner, key, value)` triples. -/
structure DB where
  users : List UserR
  subs : List SubR
  posts : List PostR
  comments : List CommentR
  postVotes : List PostVoteR
  commentVotes : List CommentVoteR
  subBans : List SubBanR
  userIgnores : List (Nat × Nat)
  messages : List MessageR
  notifications : List NotificationR
  siteMetadata : List (String × String)
  subMetadata : List (Nat × String × String)
  userMetadata : List (Nat × String × String)
deriving DecidableEq, Repr

/-- `is_sub_banned` (misc.py 446-463, the `uid` form used by `cast_vote` and
`create_post`): an active `SubBan` row exists for (sid, uid), i.e. effective
and not yet expired. -/
def is_sub_banned (db : DB) (now : Int) (sid uid : Nat) : Bool :=
  db.subBans.any (fun b =>
    decide (b.sid = sid) && decide (b.uid = uid) && b.effective &&
      (match b.expires with
       | none => true
       | some e => decide (e > now)))

/-- `User.update(...).where(User.uid == u)`: rewrite every matching row. -/
def updateUser (users : List UserR) (u : Nat) (f : UserR → UserR) : List UserR :=
  users.map (fun x => if x.uid = u then f x else x)

/-- `SubPost.update(...).where(SubPost.pid == p)`. -/
def updatePost (posts : List PostR) (p : Nat) (f : PostR → PostR) : List PostR :=
  posts.map (fun x => if x.pid = p then f x else x)

/-- `SubPostComment.update(...).where(SubPostComment.cid == c)`. -/
def updateComment (comments : List CommentR) (c : Nat) (f : CommentR → CommentR) :
    List CommentR :=
  comments.map (fun x => if x.cid = c then f x else x)

/-- `qvote.delete_instance()` for a post vote. -/
def deletePostVote (votes : List PostVoteR) (p u : Nat) : List PostVoteR :=
  votes.filter (fun v => ¬(v.pid = p ∧ v.uid = u))

/-- `qvote.delete_instance()` for a comment vote. -/
def deleteCommentVote (votes : List CommentVoteR) (c u : Nat) : List CommentVoteR :=
  votes.filter (fun v => ¬(v.cid = c ∧ v.uid = u))

/-- `qvote.positive = positive; qvote.save()` for a post vote. -/
def setPostVote (votes : List PostVoteR) (p u : Nat) (pos : Bool) : List PostVoteR :=
  votes.map (fun v => if v.pid = p ∧ v.uid = u then { v with positive := pos } else v)

/-- `qvote.positive = positive; qvote.save()` for a comment vote. -/
def setCommentVote (votes : List CommentVoteR) (c u : Nat) (pos : Bool) :
    List CommentVoteR :=
  votes.map (fun v => if v.cid = c ∧ v.uid = u then { v with positive := pos } else v)

/-! ## The voting engine (misc.py: `cast_vote`, lines 1688-1815) -/

/-- The value `cast_vote` returns to api3: either the updated score plus the
`rm` (undone) flag, or an error with its HTTP status code and message. -/
inductive VoteResult where
  | ok (score : Int) (rm : Bool)
  | err (code : Nat) (msg : String)
deriving DecidableEq, Repr

/-- `cast_vote(uid, target_type, pcid, value)`.  `archiveDays` is
`config.site.archive_post_after` and `now` is `datetime.utcnow()`.  The API
passes `value` as the `'up'`/`'down'` URL segment (the boolean variant of the
parameter is not reachable from api3).  `socketio` pushes are not stored
state and are omitted; every state-changing write is modelled. -/
def cast_vote (db : DB) (archiveDays : Int) (now : Int) (uid : Nat)
    (target_type : String) (pcid : Nat) (value : String) : VoteResult × DB :=
  match db.users.find? (fun u => u.uid = uid) with
  | none => (.err 403 "Unknown error. User disappeared", db)
  | some user =>
    if value ≠ "up" ∧ value ≠ "down" then (.err 400 "Invalid vote value", db)
    else if value = "down" ∧ user.given < 0 then (.err 403 "Score balance is negative", db)
    else
      let voteValue : Int := if value = "up" then 1 else -1
      let positive : Bool := voteValue = 1
      if target_type = "post" then
        match db.posts.find? (fun p => p.pid = pcid ∧ p.deleted = 0) with
        | none => (.err 404 "Post does not exist", db)
        | some target =>
          -- dead check in the code: the select already filters deleted == 0
          if target.deleted ≠ 0 then (.err 400 "You can't vote on deleted posts", db)
          else if is_sub_banned db now target.sid user.uid then
            (.err 403 "You are banned on this sub.", db)
          else if (now - target.posted) > archiveDays * 86400 then
            (.err 400 "Post is archived", db)
          else
            match db.postVotes.find? (fun v => v.pid = pcid ∧ v.uid = uid) with
            | some qvote =>
              if qvote.positive = positive then
                -- same direction: retract the vote
                let db := { db with postVotes := deletePostVote db.postVotes pcid uid }
                let db := { db with posts :=
                  (if positive then
                    updatePost db.posts target.pid (fun p =>
                      { p with score := p.score - voteValue, upvotes := p.upvotes - 1 })
                  else
                    updatePost db.posts target.pid (fun p =>
                      { p with score := p.score - voteValue, downvotes := p.downvotes - 1 })) }
                let db := { db with users := updateUser db.users target.uid (fun u =>
                  { u with score := u.score - voteValue }) }
                let db := { db with users := updateUser db.users uid (fun u =>
                  { u with given := u.given - voteValue }) }
                (.ok (target.score + (-voteValue)) true, db)
              else
                -- opposite direction: flip the vote in place
                let db := { db with postVotes := setPostVote db.postVotes pcid uid positive }
                let db := { db with posts :=
                  (if positive then
                    updatePost db.posts target.pid (fun p =>
                      { p with score := p.score + voteValue * 2,
                               upvotes := p.upvotes + 1, downvotes := p.downvotes - 1 })
                  else
                    updatePost db.posts target.pid (fun p =>
                      { p with score := p.score + voteValue * 2,
                               upvotes := p.upvotes - 1, downvotes := p.downvotes + 1 })) }
                let db := { db with users := updateUser db.users target.uid (fun u =>
                  { u with score := u.score + voteValue * 2 }) }
                -- note: the voter's `given` moves by voteValue, not 2*voteValue
                let db := { db with users := updateUser db.users uid (fun u =>
                  { u with given := u.given + voteValue }) }
                (.ok (target.score + voteValue * 2) false, db)
            | none =>
              -- first vote on this target
              let db := { db with postVotes :=
                db.postVotes ++ [({ pid := pcid, uid := uid, positive := positive } : PostVoteR)] }
              let db := { db with posts :=
                (if positive then
                  updatePost db.posts target.pid (fun p =>
                    { p with score := p.score + voteValue, upvotes := p.upvotes + 1 })
                else
                  updatePost db.posts target.pid (fun p =>
                    { p with score := p.score + voteValue, downvotes := p.downvotes + 1 })) }
              let db := { db with users := updateUser db.users target.uid (fun u =>
                { u with score := u.score + voteValue }) }
              let db := { db with users := updateUser db.users uid (fun u =>
                { u with given := u.given + voteValue }) }
              (.ok (target.score + voteValue) false, db)
      else if target_type = "comment" then
        match db.comments.find? (fun c => c.cid = pcid ∧ c.status = none) with
        | none => (.err 404 "Comment does not exist", db)
        | some target =>
          -- the select joins SubPost (for the sub id); the join is inner, so a
          -- comment whose post row is missing also raises DoesNotExist
          match db.posts.find? (fun p => p.pid = target.pid) with
          | none => (.err 404 "Comment does not exist", db)
          | some post =>
            if target.uid = user.uid then
              (.err 400 "You can't vote on your own comments", db)
            -- dead check in the code: the select already filters status is null
            else if target.status.isSome then
              (.err 400 "You can't vote on deleted comments", db)
            else if is_sub_banned db now post.sid user.uid then
              (.err 403 "You are banned on this sub.", db)
            -- NB: `posted` is aliased to the *comment's* `time` in the select
            else if (now - target.time) > archiveDays * 86400 then
              (.err 400 "Post is archived", db)
            else
              match db.commentVotes.find? (fun v => v.cid = pcid ∧ v.uid = uid) with
              | some qvote =>
                if qvote.positive = positive then
                  let db := { db with commentVotes := deleteCommentVote db.commentVotes pcid uid }
                  let db := { db with comments :=
                    (if positive then
                      updateComment db.comments target.cid (fun c =>
                        { c with score := c.score - voteValue, upvotes := c.upvotes - 1 })
                    else
                      updateComment db.comments target.cid (fun c =>
                        { c with score := c.score - voteValue, downvotes := c.downvotes - 1 })) }
                  let db := { db with users := updateUser db.users target.uid (fun u =>
                    { u with score := u.score - voteValue }) }
                  let db := { db with users := updateUser db.users uid (fun u =>
                    { u with given := u.given - voteValue }) }
                  (.ok (target.score + (-voteValue)) true, db)
                else
                  let db := { db with commentVotes := setCommentVote db.commentVotes pcid uid positive }
                  let db := { db with comments :=
                    (if positive then
                      updateComment db.comments target.cid (fun c =>
                        { c with score := c.score + voteValue * 2,
                                 upvotes := c.upvotes + 1, downvotes := c.downvotes - 1 })
                    else
                      updateComment db.comments target.cid (fun c =>
                        { c with score := c.score + voteValue * 2,
                                 upvotes := c.upvotes - 1, downvotes := c.downvotes + 1 })) }
                  let db := { db with users := updateUser db.users target.uid (fun u =>
                    { u with score := u.score + voteValue * 2 }) }
                  let db := { db with users := updateUser db.users uid (fun u =>
                    { u with given := u.given + voteValue }) }
                  (.ok (target.score + voteValue * 2) false, db)
              | none =>
                let db := { db with commentVotes :=
                  db.commentVotes ++ [({ cid := pcid, uid := uid, positive := positive } : CommentVoteR)] }
                let db := { db with comments :=
                  (if positive then
                    updateComment db.comments target.cid (fun c =>
                      { c with score := c.score + voteValue, upvotes := c.upvotes + 1 })
                  else
                    updateComment db.comments target.cid (fun c =>
                      { c with score := c.score + voteValue, downvotes := c.downvotes + 1 })) }
                let db := { db with users := updateUser db.users target.uid (fun u =>
                  { u with score := u.score + voteValue }) }
                let db := { db with users := updateUser db.users uid (fun u =>
                  { u with given := u.given + voteValue }) }
                (.ok (target.score + voteValue) false, db)
      else (.err 400 "Invalid target", db)

/-! ### Observations on the stored state, and row-update lemmas -/

/-- First `User` row with the given uid. -/
def userRow (db : DB) (u : Nat) : Option UserR :=
  db.users.find? (fun x => x.uid = u)

/-- First `SubPost` row with the given pid. -/
def postRow (db : DB) (p : Nat) : Option PostR :=
  db.posts.find? (fun x => x.pid = p)

/-- First `SubPostComment` row with the given cid. -/
def commentRow (db : DB) (c : Nat) : Option CommentR :=
  db.comments.find? (fun x => x.cid = c)

/-- The (pid, uid) post-vote row. -/
def postVoteRow (db : DB) (p u : Nat) : Option PostVoteR :=
  db.postVotes.find? (fun v => v.pid = p ∧ v.uid = u)

/-- The (cid, uid) comment-vote row. -/
def commentVoteRow (db : DB) (c u : Nat) : Option CommentVoteR :=
  db.commentVotes.find? (fun v => v.cid = c ∧ v.uid = u)

/-- If the first `p`-match also satisfies the stronger predicate `q`
(with `q` implying `p` everywhere), it is also the first `q`-match. -/
theorem find?_stronger {α : Type _} {l : List α} {p q : α → Bool} {a : α}
    (hpq : ∀ x, q x = true → p x = true) (ha : l.find? p = some a)
    (hqa : q a = true) : l.find? q = some a := by
  induction l with
  | nil => simp at ha
  | cons x xs ih =>
      rcases hp : p x with _ | _
      · have hq : q x = false := by
          rcases hqx : q x with _ | _
          · rfl
          · rw [hpq x hqx] at hp; cases hp
        rw [List.find?_cons_of_neg _ (by simp [hp])] at ha
        rw [List.find?_cons_of_neg _ (by simp [hq])]
        exact ih ha
      · rw [List.find?_cons_of_pos _ hp] at ha
        obtain rfl : x = a := by injection ha
        rw [List.find?_cons_of_pos _ hqa]

/-- A keyed map-update commutes with a keyed lookup when the update
preserves keys. -/
theorem find?_map_keyed {α : Type _} (l : List α) (key : α → Nat) (u w : Nat)
    (f : α → α) (hf : ∀ x, key (f x) = key x) :
    (l.map (fun x => if key x = u then f x else x)).find? (fun x => key x = w)
      = (l.find? (fun x => key x = w)).map (fun x => if key x = u then f x else x) := by
  induction l with
  | nil => rfl
  | cons x xs ih =>
      simp only [List.map_cons]
      by_cases hx : key x = w
      · have h1 : key (if key x = u then f x else x) = w := by
          split <;> simp [hf, hx]
        rw [List.find?_cons_of_pos _ (by simpa using h1),
            List.find?_cons_of_pos _ (by simpa using hx)]
        rfl
      · have h1 : ¬ key (if key x = u then f x else x) = w := by
          split <;> simp [hf, hx]
        rw [List.find?_cons_of_neg _ (by simpa using h1),
            List.find?_cons_of_neg _ (by simpa using hx)]
        exact ih

theorem userRow_updateUser (db' : List UserR) (u w : Nat) (f : UserR → UserR)
    (hf : ∀ x, (f x).uid = x.uid) :
    (updateUser db' u f).find? (fun x => x.uid = w)
      = (db'.find? (fun x => x.uid = w)).map (fun x => if x.uid = u then f x else x) :=
  find?_map_keyed db' UserR.uid u w f hf

theorem postRow_updatePost (ps : List PostR) (u w : Nat) (f : PostR → PostR)
    (hf : ∀ x, (f x).pid = x.pid) :
    (updatePost ps u f).find? (fun x => x.pid = w)
      = (ps.find? (fun x => x.pid = w)).map (fun x => if x.pid = u then f x else x) :=
  find?_map_keyed ps PostR.pid u w f hf

theorem commentRow_updateComment (cs : List CommentR) (u w : Nat) (f : CommentR → CommentR)
    (hf : ∀ x, (f x).cid = x.cid) :
    (updateComment cs u f).find? (fun x => x.cid = w)
      = (cs.find? (fun x => x.cid = w)).map (fun x => if x.cid = u then f x else x) :=
  find?_map_keyed cs CommentR.cid u w f hf

theorem find?_deletePostVote (votes : List PostVoteR) (p u : Nat) :
    (deletePostVote votes p u).find? (fun v => v.pid = p ∧ v.uid = u) = none := by
  rw [List.find?_eq_none]
  intro x hx
  have h := (List.mem_filter.mp hx).2
  simp only [decide_not, Bool.not_eq_eq_eq_not, Bool.not_true, decide_eq_false_iff_not] at h
  simp only [Bool.not_eq_true, decide_eq_false_iff_not]
  tauto

theorem find?_deleteCommentVote (votes : List CommentVoteR) (c u : Nat) :
    (deleteCommentVote votes c u).find? (fun v => v.cid = c ∧ v.uid = u) = none := by
  rw [List.find?_eq_none]
  intro x hx
  have h := (List.mem_filter.mp hx).2
  simp only [decide_not, Bool.not_eq_eq_eq_not, Bool.not_true, decide_eq_false_iff_not] at h
  simp only [Bool.not_eq_true, decide_eq_false_iff_not]
  tauto

theorem find?_setPostVote (votes : List PostVoteR) (p u : Nat) (pos : Bool) :
    (setPostVote votes p u pos).find? (fun v => v.pid = p ∧ v.uid = u)
      = (votes.find? (fun v => v.pid = p ∧ v.uid = u)).map
          (fun v => { v with positive := pos }) := by
  induction votes with
  | nil => rfl
  | cons x xs ih =>
      simp only [setPostVote, List.map_cons]
      by_cases hx : x.pid = p ∧ x.uid = u
      · rw [if_pos hx, List.find?_cons_of_pos _ (by simpa using hx),
            List.find?_cons_of_pos _ (by simpa using hx)]
        rfl
      · rw [if_neg hx, List.find?_cons_of_neg _ (by simpa using hx),
            List.find?_cons_of_neg _ (by simpa using hx)]
        exact ih

theorem find?_setCommentVote (votes : List CommentVoteR) (c u : Nat) (pos : Bool) :
    (setCommentVote votes c u pos).find? (fun v => v.cid = c ∧ v.uid = u)
      = (votes.find? (fun v => v.cid = c ∧ v.uid = u)).map
          (fun v => { v with positive := pos }) := by
  induction votes with
  | nil => rfl
  | cons x xs ih =>
      simp only [setCommentVote, List.map_cons]
      by_cases hx : x.cid = c ∧ x.uid = u
      · rw [if_pos hx, List.find?_cons_of_pos _ (by simpa using hx),
            List.find?_cons_of_pos _ (by simpa using hx)]
        rfl
      · rw [if_neg hx, List.find?_cons_of_neg _ (by simpa using hx),
            List.find?_cons_of_neg _ (by simpa using hx)]
        exact ih

/-- The URL path segment carrying the direction of a vote. -/
def dirStr (dir : Bool) : String := if dir then "up" else "down"

/-- A vote's numeric contribution: +1 for an upvote, -1 for a downvote. -/
def dirVal (dir : Bool) : Int := if dir then 1 else -1

/-- `cast_vote` on a post for which the caller already holds a same-direction
vote: the whole call reduces to the retraction branch (misc.py 1760-1771). -/
theorem cast_vote_post_retract
    (db : DB) (archiveDays now : Int) (uid pcid : Nat) (dir : Bool)
    (voter : UserR) (target : PostR) (qv : PostVoteR)
    (hu : db.users.find? (fun x => x.uid = uid) = some voter)
    (hg : dir = false → 0 ≤ voter.given)
    (ht : db.posts.find? (fun x => x.pid = pcid) = some target)
    (htd : target.deleted = 0)
    (hban : is_sub_banned db now target.sid uid = false)
    (harch : ¬ (now - target.posted > archiveDays * 86400))
    (hv : db.postVotes.find? (fun v => v.pid = pcid ∧ v.uid = uid) = some qv)
    (hqv : qv.positive = dir) :
    cast_vote db archiveDays now uid "post" pcid (dirStr dir) =
      (VoteResult.ok (target.score + (-(dirVal dir))) true,
       { db with
          postVotes := deletePostVote db.postVotes pcid uid,
          posts :=
            (if dir then
              updatePost db.posts target.pid (fun p =>
                { p with score := p.score - dirVal dir, upvotes := p.upvotes - 1 })
            else
              updatePost db.posts target.pid (fun p =>
                { p with score := p.score - dirVal dir, downvotes := p.downvotes - 1 })),
          users := updateUser
            (updateUser db.users target.uid (fun u => { u with score := u.score - dirVal dir }))
            uid (fun u => { u with given := u.given - dirVal dir }) }) := by
  have hvu : voter.uid = uid := by simpa using List.find?_some hu
  have htp : target.pid = pcid := by simpa using List.find?_some ht
  have ht2 : db.posts.find? (fun p => p.pid = pcid ∧ p.deleted = 0) = some target := by
    refine find?_stronger (fun x hx => ?_) ht (by simp [htp, htd])
    simp only [decide_eq_true_eq] at hx ⊢
    exact hx.1
  cases dir with
  | true =>
      unfold cast_vote
      rw [hu, ht2, hv]
      simp only [dirStr, dirVal, if_true, hvu, hban, hqv, htd]
      simp [harch]
  | false =>
      unfold cast_vote
      rw [hu, ht2, hv]
      simp only [dirStr, dirVal, if_false, hvu, hban, hqv, htd]
      simp [harch, hg rfl]

/-- `cast_vote` on a comment for which the caller already holds a
same-direction vote: the call reduces to the retraction branch. -/
theorem cast_vote_comment_retract
    (db : DB) (archiveDays now : Int) (uid pcid : Nat) (dir : Bool)
    (voter : UserR) (target : CommentR) (post : PostR) (qv : CommentVoteR)
    (hu : db.users.find? (fun x => x.uid = uid) = some voter)
    (hg : dir = false → 0 ≤ voter.given)
    (ht : db.comments.find? (fun x => x.cid = pcid) = some target)
    (hst : target.status = none)
    (hp : db.posts.find? (fun p => p.pid = target.pid) = some post)
    (hself : ¬ target.uid = uid)
    (hban : is_sub_banned db now post.sid uid = false)
    (harch : ¬ (now - target.time > archiveDays * 86400))
    (hv : db.commentVotes.find? (fun v => v.cid = pcid ∧ v.uid = uid) = some qv)
    (hqv : qv.positive = dir) :
    cast_vote db archiveDays now uid "comment" pcid (dirStr dir) =
      (VoteResult.ok (target.score + (-(dirVal dir))) true,
       { db with
          commentVotes := deleteCommentVote db.commentVotes pcid uid,
          comments :=
            (if dir then
              updateComment db.comments target.cid (fun c =>
                { c with score := c.score - dirVal dir, upvotes := c.upvotes - 1 })
            else
              updateComment db.comments target.cid (fun c =>
                { c with score := c.score - dirVal dir, downvotes := c.downvotes - 1 })),
          users := updateUser
            (updateUser db.users target.uid (fun u => { u with score := u.score - dirVal dir }))
            uid (fun u => { u with given := u.given - dirVal dir }) }) := by
  have hvu : voter.uid = uid := by simpa using List.find?_some hu
  have htc : target.cid = pcid := by simpa using List.find?_some ht
  have ht2 : db.comments.find? (fun c => c.cid = pcid ∧ c.status = none) = some target := by
    refine find?_stronger (fun x hx => ?_) ht (by simp [htc, hst])
    simp only [decide_eq_true_eq] at hx ⊢
    exact hx.1
  cases dir with
  | true =>
      unfold cast_vote
      rw [hu, ht2]
      simp only [dirStr, dirVal, if_true, hvu, hst]
      rw [hp, hv]
      simp only [hqv, hban]
      simp [harch, hself]
  | false =>
      unfold cast_vote
      rw [hu, ht2]
      simp only [dirStr, dirVal, if_false, hvu, hst]
      rw [hp, hv]
      simp only [hqv, hban]
      simp [harch, hself, hg rfl]

/-- `cast_vote` on a post for which the caller holds an opposite-direction
vote: the call reduces to the flip branch (misc.py 1772-1784).  Note the
voter's `given` moves by `dirVal dir`, not by twice that. -/
theorem cast_vote_post_flip
    (db : DB) (archiveDays now : Int) (uid pcid : Nat) (dir : Bool)
    (voter : UserR) (target : PostR) (qv : PostVoteR)
    (hu : db.users.find? (fun x => x.uid = uid) = some voter)
    (hg : dir = false → 0 ≤ voter.given)
    (ht : db.posts.find? (fun x => x.pid = pcid) = some target)
    (htd : target.deleted = 0)
    (hban : is_sub_banned db now target.sid uid = false)
    (harch : ¬ (now - target.posted > archiveDays * 86400))
    (hv : db.postVotes.find? (fun v => v.pid = pcid ∧ v.uid = uid) = some qv)
    (hqv : qv.positive = !dir) :
    cast_vote db archiveDays now uid "post" pcid (dirStr dir) =
      (VoteResult.ok (target.score + dirVal dir * 2) false,
       { db with
          postVotes := setPostVote db.postVotes pcid uid dir,
          posts :=
            (if dir then
              updatePost db.posts target.pid (fun p =>
                { p with score := p.score + dirVal dir * 2,
                         upvotes := p.upvotes + 1, downvotes := p.downvotes - 1 })
            else
              updatePost db.posts target.pid (fun p =>
                { p with score := p.score + dirVal dir * 2,
                         upvotes := p.upvotes - 1, downvotes := p.downvotes + 1 })),
          users := updateUser
            (updateUser db.users target.uid (fun u => { u with score := u.score + dirVal dir * 2 }))
            uid (fun u => { u with given := u.given + dirVal dir }) }) := by
  have hvu : voter.uid = uid := by simpa using List.find?_some hu
  have htp : target.pid = pcid := by simpa using List.find?_some ht
  have ht2 : db.posts.find? (fun p => p.pid = pcid ∧ p.deleted = 0) = some target := by
    refine find?_stronger (fun x hx => ?_) ht (by simp [htp, htd])
    simp only [decide_eq_true_eq] at hx ⊢
    exact hx.1
  cases dir with
  | true =>
      unfold cast_vote
      rw [hu, ht2, hv]
      simp only [dirStr, dirVal, if_true, hvu, hban, hqv, htd]
      simp [harch]
  | false =>
      unfold cast_vote
      rw [hu, ht2, hv]
      simp only [dirStr, dirVal, if_false, hvu, hban, hqv, htd]
      simp [harch, hg rfl]

/-- `cast_vote` rejects a vote on an archived post with HTTP 400 and leaves
the state unchanged (misc.py 1754-1755). -/
theorem cast_vote_post_archived
    (db : DB) (archiveDays now : Int) (uid pcid : Nat) (dir : Bool)
    (voter : UserR) (target : PostR)
    (hu : db.users.find? (fun x => x.uid = uid) = some voter)
    (hg : dir = false → 0 ≤ voter.given)
    (ht : db.posts.find? (fun x => x.pid = pcid) = some target)
    (htd : target.deleted = 0)
    (hban : is_sub_banned db now target.sid uid = false)
    (harch : now - target.posted > archiveDays * 86400) :
    cast_vote db archiveDays now uid "post" pcid (dirStr dir) =
      (VoteResult.err 400 "Post is archived", db) := by
  have hvu : voter.uid = uid := by simpa using List.find?_some hu
  have htp : target.pid = pcid := by simpa using List.find?_some ht
  have ht2 : db.posts.find? (fun p => p.pid = pcid ∧ p.deleted = 0) = some target := by
    refine find?_stronger (fun x hx => ?_) ht (by simp [htp, htd])
    simp only [decide_eq_true_eq] at hx ⊢
    exact hx.1
  cases dir with
  | true =>
      unfold cast_vote
      rw [hu, ht2]
      simp only [dirStr, if_true, hvu, hban, htd]
      simp [harch]
  | false =>
      unfold cast_vote
      rw [hu, ht2]
      simp only [dirStr, if_false, hvu, hban, htd]
      simp [harch, hg rfl]

/-- `cast_vote` rejects a vote on an old comment with HTTP 400 and leaves the
state unchanged.  Note the age tested is the *comment's* `time` (aliased to
`posted` in the select), not the parent post's timestamp. -/
theorem cast_vote_comment_archived
    (db : DB) (archiveDays now : Int) (uid pcid : Nat) (dir : Bool)
    (voter : UserR) (target : CommentR) (post : PostR)
    (hu : db.users.find? (fun x => x.uid = uid) = some voter)
    (hg : dir = false → 0 ≤ voter.given)
    (ht : db.comments.find? (fun x => x.cid = pcid) = some target)
    (hst : target.status = none)
    (hp : db.posts.find? (fun p => p.pid = target.pid) = some post)
    (hself : ¬ target.uid = uid)
    (hban : is_sub_banned db now post.sid uid = false)
    (harch : now - target.time > archiveDays * 86400) :
    cast_vote db archiveDays now uid "comment" pcid (dirStr dir) =
      (VoteResult.err 400 "Post is archived", db) := by
  have hvu : voter.uid = uid := by simpa using List.find?_some hu
  have htc : target.cid = pcid := by simpa using List.find?_some ht
  have ht2 : db.comments.find? (fun c => c.cid = pcid ∧ c.status = none) = some target := by
    refine find?_stronger (fun x hx => ?_) ht (by simp [htc, hst])
    simp only [decide_eq_true_eq] at hx ⊢
    exact hx.1
  cases dir with
  | true =>
      unfold cast_vote
      rw [hu, ht2]
      simp only [dirStr, if_true, hvu, hst]
      rw [hp]
      simp only [hban]
      simp [harch, hself]
  | false =>
      unfold cast_vote
      rw [hu, ht2]
      simp only [dirStr, if_false, hvu, hst]
      rw [hp]
      simp only [hban]
      simp [harch, hself, hg rfl]

/-- C1: a user who already cast a vote and calls `cast_vote` again with the
same direction retracts it: the vote row is removed, the target's score and
the matching directional counter drop by the original contribution, the
target owner's karma and the voter's `given` balance both drop by the
original contribution, and the call reports `rm = true` with the score
returned to its pre-vote value.  Stated for both targets: posts (first
conjunct) and comments (second conjunct). -/
theorem claim_C1 :
    (∀ (db : DB) (archiveDays now : Int) (uid pcid : Nat) (dir : Bool)
        (voter : UserR) (target : PostR) (qv : PostVoteR),
      userRow db uid = some voter →
      (dir = false → 0 ≤ voter.given) →
      postRow db pcid = some target →
      target.deleted = 0 →
      is_sub_banned db now target.sid uid = false →
      ¬ (now - target.posted > archiveDays * 86400) →
      postVoteRow db pcid uid = some qv →
      qv.positive = dir →
      (cast_vote db archiveDays now uid "post" pcid (dirStr dir)).1
          = VoteResult.ok (target.score - dirVal dir) true ∧
      postVoteRow (cast_vote db archiveDays now uid "post" pcid (dirStr dir)).2 pcid uid
          = none ∧
      postRow (cast_vote db archiveDays now uid "post" pcid (dirStr dir)).2 pcid
          = some { target with
              score := target.score - dirVal dir,
              upvotes := target.upvotes - (if dir then 1 else 0),
              downvotes := target.downvotes - (if dir then 0 else 1) } ∧
      (userRow (cast_vote db archiveDays now uid "post" pcid (dirStr dir)).2 target.uid).map
            (fun u => u.score)
          = (userRow db target.uid).map (fun u => u.score - dirVal dir) ∧
      (userRow (cast_vote db archiveDays now uid "post" pcid (dirStr dir)).2 uid).map
            (fun u => u.given)
          = some (voter.given - dirVal dir)) ∧
    (∀ (db : DB) (archiveDays now : Int) (uid pcid : Nat) (dir : Bool)
        (voter : UserR) (target : CommentR) (post : PostR) (qv : CommentVoteR),
      userRow db uid = some voter →
      (dir = false → 0 ≤ voter.given) →
      commentRow db pcid = some target →
      target.status = none →
      postRow db target.pid = some post →
      ¬ target.uid = uid →
      is_sub_banned db now post.sid uid = false →
      ¬ (now - target.time > archiveDays * 86400) →
      commentVoteRow db pcid uid = some qv →
      qv.positive = dir →
      (cast_vote db archiveDays now uid "comment" pcid (dirStr dir)).1
          = VoteResult.ok (target.score - dirVal dir) true ∧
      commentVoteRow (cast_vote db archiveDays now uid "comment" pcid (dirStr dir)).2 pcid uid
          = none ∧
      commentRow (cast_vote db archiveDays now uid "comment" pcid (dirStr dir)).2 pcid
          = some { target with
              score := target.score - dirVal dir,
              upvotes := target.upvotes - (if dir then 1 else 0),
              downvotes := target.downvotes - (if dir then 0 else 1) } ∧
      (userRow (cast_vote db archiveDays now uid "comment" pcid (dirStr dir)).2 target.uid).map
            (fun u => u.score)
          = (userRow db target.uid).map (fun u => u.score - dirVal dir) ∧
      (userRow (cast_vote db archiveDays now uid "comment" pcid (dirStr dir)).2 uid).map
            (fun u => u.given)
          = some (voter.given - dirVal dir)) := by
  constructor
  · intro db archiveDays now uid pcid dir voter target qv hu hg ht htd hban harch hv hqv
    simp only [userRow] at hu
    simp only [postRow] at ht
    simp only [postVoteRow] at hv
    have htp : target.pid = pcid := by simpa using List.find?_some ht
    rw [cast_vote_post_retract db archiveDays now uid pcid dir voter target qv
      hu hg ht htd hban harch hv hqv]
    refine ⟨by simp [sub_eq_add_neg], ?_, ?_, ?_, ?_⟩
    · simp only [postVoteRow]
      exact find?_deletePostVote _ _ _
    · simp only [postRow]
      cases dir <;>
        · simp only [if_true, if_false, Bool.false_eq_true]
          rw [postRow_updatePost, ht]
          · simp [htp]
          · intro x
            rfl
    · simp only [userRow]
      rw [userRow_updateUser, userRow_updateUser]
      rotate_left
      · intro x
        rfl
      · intro x
        rfl
      cases hb : db.users.find? (fun x => x.uid = target.uid) with
      | none => simp
      | some u =>
          have hu2 : u.uid = target.uid := by simpa using List.find?_some hb
          simp only [Option.map_some']
          split <;> split <;> simp_all
    · simp only [userRow]
      rw [userRow_updateUser, userRow_updateUser, hu]
      rotate_left
      · intro x
        rfl
      · intro x
        rfl
      have hvu : voter.uid = uid := by simpa using List.find?_some hu
      simp only [Option.map_some']
      split <;> simp_all
  · intro db archiveDays now uid pcid dir voter target post qv
      hu hg ht hst hp hself hban harch hv hqv
    simp only [userRow] at hu
    simp only [commentRow] at ht
    simp only [postRow] at hp
    simp only [commentVoteRow] at hv
    have htc : target.cid = pcid := by simpa using List.find?_some ht
    rw [cast_vote_comment_retract db archiveDays now uid pcid dir voter target post qv
      hu hg ht hst hp hself hban harch hv hqv]
    refine ⟨by simp [sub_eq_add_neg], ?_, ?_, ?_, ?_⟩
    · simp only [commentVoteRow]
      exact find?_deleteCommentVote _ _ _
    · simp only [commentRow]
      cases dir <;>
        · simp only [if_true, if_false, Bool.false_eq_true]
          rw [commentRow_updateComment, ht]
          · simp [htc]
          · intro x
            rfl
    · simp only [userRow]
      rw [userRow_updateUser, userRow_updateUser]
      rotate_left
      · intro x
        rfl
      · intro x
        rfl
      cases hb : db.users.find? (fun x => x.uid = target.uid) with
      | none => simp
      | some u =>
          have hu2 : u.uid = target.uid := by simpa using List.find?_some hb
          simp only [Option.map_some']
          split <;> split <;> simp_all
    · simp only [userRow]
      rw [userRow_updateUser, userRow_updateUser, hu]
      rotate_left
      · intro x
        rfl
      · intro x
        rfl
      have hvu : voter.uid = uid := by simpa using List.find?_some hu
      simp only [Option.map_some']
      split <;> simp_all

/-- Concrete fixture for the voting claims: voter 1 (given 2) holds an
upvote on post 100 (owned by user 2) and on comment 200 (owned by user 2). -/
def voterC1 : UserR :=
  { uid := 1, name := "alice", status := 0, score := 5, given := 2, crypto := 1, password := "h" }

def ownerC1 : UserR :=
  { uid := 2, name := "bob", status := 0, score := 9, given := 0, crypto := 1, password := "h" }

def postC1 : PostR :=
  { pid := 100, sid := 10, uid := 2, title := "t", content := none, link := none,
    ptype := 0, nsfw := false, deleted := 0, score := 3, upvotes := 4, downvotes := 1,
    comments := 1, posted := 1000, thumbnail := "" }

def commentC1 : CommentR :=
  { cid := 200, pid := 100, uid := 2, content := "c", parentcid := none,
    score := 7, upvotes := 8, downvotes := 1, status := none, time := 1500, lastedit := none }

def dbC1 : DB :=
  { users := [voterC1, ownerC1],
    subs := [{ sid := 10, name := "s", posts := 1 }],
    posts := [postC1],
    comments := [commentC1],
    postVotes := [{ pid := 100, uid := 1, positive := true }],
    commentVotes := [{ cid := 200, uid := 1, positive := true }],
    subBans := [], userIgnores := [], messages := [], notifications := [],
    siteMetadata := [], subMetadata := [], userMetadata := [] }

/-- Witness for C1: the same-direction revote on the concrete fixture
retracts the vote on both a post and a comment. -/
theorem claim_C1_witness :
    ((cast_vote dbC1 60 2000 1 "post" 100 (dirStr true)).1
        = VoteResult.ok (postC1.score - dirVal true) true ∧
      postVoteRow (cast_vote dbC1 60 2000 1 "post" 100 (dirStr true)).2 100 1 = none ∧
      postRow (cast_vote dbC1 60 2000 1 "post" 100 (dirStr true)).2 100
          = some { postC1 with
              score := postC1.score - dirVal true,
              upvotes := postC1.upvotes - (if true then 1 else 0),
              downvotes := postC1.downvotes - (if true then 0 else 1) } ∧
      (userRow (cast_vote dbC1 60 2000 1 "post" 100 (dirStr true)).2 postC1.uid).map
            (fun u => u.score)
          = (userRow dbC1 postC1.uid).map (fun u => u.score - dirVal true) ∧
      (userRow (cast_vote dbC1 60 2000 1 "post" 100 (dirStr true)).2 1).map
            (fun u => u.given)
          = some (voterC1.given - dirVal true)) ∧
    ((cast_vote dbC1 60 2000 1 "comment" 200 (dirStr true)).1
        = VoteResult.ok (commentC1.score - dirVal true) true ∧
      commentVoteRow (cast_vote dbC1 60 2000 1 "comment" 200 (dirStr true)).2 200 1 = none ∧
      commentRow (cast_vote dbC1 60 2000 1 "comment" 200 (dirStr true)).2 200
          = some { commentC1 with
              score := commentC1.score - dirVal true,
              upvotes := commentC1.upvotes - (if true then 1 else 0),
              downvotes := commentC1.downvotes - (if true then 0 else 1) } ∧
      (userRow (cast_vote dbC1 60 2000 1 "comment" 200 (dirStr true)).2 commentC1.uid).map
            (fun u => u.score)
          = (userRow dbC1 commentC1.uid).map (fun u => u.score - dirVal true) ∧
      (userRow (cast_vote dbC1 60 2000 1 "comment" 200 (dirStr true)).2 1).map
            (fun u => u.given)
          = some (voterC1.given - dirVal true)) :=
  ⟨claim_C1.1 dbC1 60 2000 1 100 true voterC1 postC1
      { pid := 100, uid := 1, positive := true }
      (by decide) (by decide) (by decide) (by decide) (by decide) (by decide)
      (by decide) (by decide),
   claim_C1.2 dbC1 60 2000 1 200 true voterC1 commentC1 postC1
      { cid := 200, uid := 1, positive := true }
      (by decide) (by decide) (by decide) (by decide) (by decide) (by decide)
      (by decide) (by decide) (by decide) (by decide)⟩

/-! ## Mention processing (misc.py: `workWithMentions`, lines 607-646)

The regex scan `re.findall(re_amention.LINKS, data)` yields for every match a
tuple of capture groups (empty strings for groups that did not participate).
Modelling the regex engine is out of scope; the match list is the model's
input.  `list(set(mts))` deduplicates with CPython's unspecified set
ordering; we model a first-occurrence dedup (every property proved below is
independent of the ordering). -/

/-- First-occurrence deduplication standing in for `list(set(mts))`
(accumulator of already-seen tuples). -/
def dedupAux : List (List String) → List (List String) → List (List String)
  | [], _ => []
  | x :: xs, seen => if x ∈ seen then dedupAux xs seen else x :: dedupAux xs (x :: seen)

/-- `list(set(mts))` as first-occurrence deduplication. -/
def dedupMatches (l : List (List String)) : List (List String) := dedupAux l []

/-- The notification cap: `usr_level > 30 → 15`, `> 20 → 10`, else `5`
(misc.py 621-627).  The level used is `current_user.get_user_level()[0]`. -/
def mentionCap (level : Nat) : Nat :=
  if level > 30 then 15 else if level > 20 then 10 else 5

/-- `t[-2]` of a match tuple (defined when the tuple has ≥ 3 entries). -/
def penult (t : List String) : String := t.getD (t.length - 2) ""

/-- `t[-1]` of a match tuple. -/
def lastOf (t : List String) : String := t.getD (t.length - 1) ""

/-- `workWithMentions(data, receivedby, post, _sub, cid, c_user)` from the
match list onward.  Returns the `Notification` rows created; the
notification-count socket pushes are not stored state.  `currentUserLevel`
is `current_user.get_user_level()[0]` (the request's logged-in user — at the
api3 call sites `c_user` is passed the same user resolved from the JWT
identity). -/
def workWithMentions (users : List UserR) (matchList : List (List String))
    (receivedby : Option Nat) (postSid postPid : Nat) (cid : Option Nat)
    (currentUserLevel : Nat) (cUserUid : Nat) : List NotificationR :=
  let mts := dedupMatches matchList
  let clean_mts := (mts.map (fun m => m.filter (fun x => x ≠ ""))).filter
    (fun t => t.length ≥ 3)
  let mts := (clean_mts.filter (fun t => penult t = "/u/" ∨ penult t = "@")).map lastOf
  let mts := mts.take (mentionCap currentUserLevel)
  mts.filterMap (fun mtn =>
    match users.find? (fun u => lowerStr u.name = lowerStr mtn) with
    | none => none
    | some user =>
        if user.uid ≠ cUserUid ∧ some user.uid ≠ receivedby then
          some { ntype := if cid.isSome then "COMMENT_MENTION" else "POST_MENTION",
                 sub := postSid, post := postPid, comment := cid,
                 sender := cUserUid, target := user.uid }
        else none)

/-! ## Comment creation (api3.py: `create_comment`, lines 306-390) -/

/-- `get_ignores` (misc.py 1206-1207). -/
def get_ignores (db : DB) (uid : Nat) : List Nat :=
  (db.userIgnores.filter (fun p => p.1 = uid)).map (fun p => p.2)

/-- The JSON response of `create_comment`: success carries pid and the new
cid; `typeError` marks an unhandled Python `TypeError`/`DoesNotExist`
propagating out of the handler (HTTP 500). -/
inductive CommentResult where
  | ok (pid : Nat) (cid : Nat)
  | err (code : Nat) (msg : String)
  | typeError (msg : String)
deriving DecidableEq, Repr

/-- The creation part of `create_comment` (api3.py 354-390), shared by the
top-level and reply paths: insert the comment row, bump the post's comment
counter, create the reply notification message unless suppressed, and run
mention processing.  `Sub.get_by_id(post.sid)` raises if the sub row is
missing (modelled as `typeError` after the earlier writes). -/
def create_comment_body (db : DB) (now : Int) (currentUserLevel : Nat)
    (mentionMatches : List (List String)) (newCid : Nat) (uid : Nat)
    (post : PostR) (parentcid : Option Nat) (contentv : String)
    (notifTo : Nat) (subject : String) (mtype : Nat) : CommentResult × DB :=
  let comment : CommentR :=
    { cid := newCid, pid := post.pid, uid := uid, content := contentv,
      parentcid := parentcid, time := now, score := 0, upvotes := 0,
      downvotes := 0, status := none, lastedit := none }
  let db := { db with comments := db.comments ++ [comment] }
  let db := { db with posts :=
    (updatePost db.posts post.pid (fun p => { p with comments := p.comments + 1 })) }
  let db :=
    if notifTo ≠ uid ∧ uid ∉ get_ignores db notifTo then
      { db with messages := (db.messages ++
        [({ sentby := uid, receivedby := notifTo, subject := subject, content := "",
            mlink := some newCid, mtype := mtype, posted := now } : MessageR)]) }
    else db
  match db.subs.find? (fun s => s.sid = post.sid) with
  | none => (.typeError "Sub.get_by_id raised DoesNotExist", db)
  | some _sub =>
      let notifs := workWithMentions db.users mentionMatches (some notifTo)
        post.sid post.pid (some newCid) currentUserLevel uid
      ((.ok post.pid newCid), { db with notifications := (db.notifications ++ notifs) })

/-- `create_comment` (api3.py 306-390).  `newCid` stands for `uuid.uuid4()`;
`mentionMatches` is the regex scan of the content; the once-per-30s rate
limiter wraps the handler and is not part of its body.  Note the archive
check hardcodes 60 days and answers 403, and the ban check uses the legacy
`SubMetadata` key `'ban'` rather than `SubBan`. -/
def create_comment (db : DB) (now : Int) (currentUserLevel : Nat)
    (mentionMatches : List (List String)) (newCid : Nat) (uid : Nat)
    (pid : Option Nat) (parentcid : Option Nat) (content : Option String) :
    CommentResult × DB :=
  -- `if not pid or not content`: None, 0 and '' are falsy
  if pid = none ∨ pid = some 0 ∨ content = none ∨ content = some "" then
    (.err 400 "Missing required parameters", db)
  else
    let pidv := pid.getD 0
    let contentv := content.getD ""
    match db.users.find? (fun u => u.uid = uid) with
    | none => (.err 403 "Unknown error. User disappeared", db)
    | some _user =>
      match db.posts.find? (fun p => p.pid = pidv) with
      | none => (.err 404 "Post does not exist", db)
      | some post =>
        if post.deleted ≠ 0 then (.err 404 "Post was deleted", db)
        else if (now - post.posted) > 60 * 86400 then (.err 403 "Post is archived", db)
        else if db.subMetadata.any (fun r =>
            decide (r.1 = post.sid) && decide (r.2.1 = "ban") && decide (r.2.2 = toString uid)) then
          (.err 403 "You are banned on this sub.", db)
        else if contentv.length > 16384 then (.err 400 "Content is too long", db)
        else
          match parentcid with
          | some pcidv =>
            match db.comments.find? (fun c => c.cid = pcidv) with
            | none => (.err 404 "Parent comment does not exist", db)
            | some parent =>
              if ¬ parent.status = none ∨ ¬ parent.pid = post.pid then
                (.err 404 "Parent comment does not exist", db)
              else
                create_comment_body db now currentUserLevel mentionMatches newCid uid
                  post parentcid contentv parent.uid ("Comment reply: " ++ post.title) 5
          | none =>
              create_comment_body db now currentUserLevel mentionMatches newCid uid
                post parentcid contentv post.uid ("Post reply: " ++ post.title) 4

/-- `cast_vote` on a comment for which the caller holds an opposite-direction
vote: the call reduces to the flip branch.  As for posts, the voter's
`given` moves by `dirVal dir`, not by twice that. -/
theorem cast_vote_comment_flip
    (db : DB) (archiveDays now : Int) (uid pcid : Nat) (dir : Bool)
    (voter : UserR) (target : CommentR) (post : PostR) (qv : CommentVoteR)
    (hu : db.users.find? (fun x => x.uid = uid) = some voter)
    (hg : dir = false → 0 ≤ voter.given)
    (ht : db.comments.find? (fun x => x.cid = pcid) = some target)
    (hst : target.status = none)
    (hp : db.posts.find? (fun p => p.pid = target.pid) = some post)
    (hself : ¬ target.uid = uid)
    (hban : is_sub_banned db now post.sid uid = false)
    (harch : ¬ (now - target.time > archiveDays * 86400))
    (hv : db.commentVotes.find? (fun v => v.cid = pcid ∧ v.uid = uid) = some qv)
    (hqv : qv.positive = !dir) :
    cast_vote db archiveDays now uid "comment" pcid (dirStr dir) =
      (VoteResult.ok (target.score + dirVal dir * 2) false,
       { db with
          commentVotes := setCommentVote db.commentVotes pcid uid dir,
          comments :=
            (if dir then
              updateComment db.comments target.cid (fun c =>
                { c with score := c.score + dirVal dir * 2,
                         upvotes := c.upvotes + 1, downvotes := c.downvotes - 1 })
            else
              updateComment db.comments target.cid (fun c =>
                { c with score := c.score + dirVal dir * 2,
                         upvotes := c.upvotes - 1, downvotes := c.downvotes + 1 })),
          users := updateUser
            (updateUser db.users target.uid (fun u => { u with score := u.score + dirVal dir * 2 }))
            uid (fun u => { u with given := u.given + dirVal dir }) }) := by
  have hvu : voter.uid = uid := by simpa using List.find?_some hu
  have htc : target.cid = pcid := by simpa using List.find?_some ht
  have ht2 : db.comments.find? (fun c => c.cid = pcid ∧ c.status = none) = some target := by
    refine find?_stronger (fun x hx => ?_) ht (by simp [htc, hst])
    simp only [decide_eq_true_eq] at hx ⊢
    exact hx.1
  cases dir with
  | true =>
      unfold cast_vote
      rw [hu, ht2]
      simp only [dirStr, dirVal, if_true, hvu, hst]
      rw [hp, hv]
      simp only [hqv, hban]
      simp [harch, hself]
  | false =>
      unfold cast_vote
      rw [hu, ht2]
      simp only [dirStr, dirVal, if_false, hvu, hst]
      rw [hp, hv]
      simp only [hqv, hban]
      simp [harch, hself, hg rfl]

/-- Counterexample to C2 as stated: on the concrete fixture, flipping the
existing upvote on post 100 to a downvote moves the voter's `given` by the
*single* new-direction value (2 → 1), not by the claimed double-magnitude
delta (which would give 2 + 2·(−1) = 0). -/
theorem claim_C2_counterexample :
    (userRow (cast_vote dbC1 60 2000 1 "post" 100 (dirStr false)).2 1).map
        (fun u => u.given) = some (voterC1.given + dirVal false) ∧
    ¬ (userRow (cast_vote dbC1 60 2000 1 "post" 100 (dirStr false)).2 1).map
        (fun u => u.given) = some (voterC1.given + dirVal false * 2) := by
  constructor
  · decide
  · decide

/-- C2 as amended: an opposite-direction `cast_vote` flips the vote in place:
the vote row's polarity is updated, the target's score changes by twice the
new direction's value, both directional counters move, and the target owner's
karma moves by the full double-magnitude delta — but the voter's `given`
balance moves only by the new direction's value (single magnitude), per
misc.py line 1784.  Stated for posts (first conjunct) and comments (second). -/
theorem claim_C2 :
    (∀ (db : DB) (archiveDays now : Int) (uid pcid : Nat) (dir : Bool)
        (voter : UserR) (target : PostR) (qv : PostVoteR),
      userRow db uid = some voter →
      (dir = false → 0 ≤ voter.given) →
      postRow db pcid = some target →
      target.deleted = 0 →
      is_sub_banned db now target.sid uid = false →
      ¬ (now - target.posted > archiveDays * 86400) →
      postVoteRow db pcid uid = some qv →
      qv.positive = !dir →
      (cast_vote db archiveDays now uid "post" pcid (dirStr dir)).1
          = VoteResult.ok (target.score + dirVal dir * 2) false ∧
      postVoteRow (cast_vote db archiveDays now uid "post" pcid (dirStr dir)).2 pcid uid
          = some { qv with positive := dir } ∧
      postRow (cast_vote db archiveDays now uid "post" pcid (dirStr dir)).2 pcid
          = some { target with
              score := target.score + dirVal dir * 2,
              upvotes := target.upvotes + (if dir then 1 else -1),
              downvotes := target.downvotes + (if dir then -1 else 1) } ∧
      (userRow (cast_vote db archiveDays now uid "post" pcid (dirStr dir)).2 target.uid).map
            (fun u => u.score)
          = (userRow db target.uid).map (fun u => u.score + dirVal dir * 2) ∧
      (userRow (cast_vote db archiveDays now uid "post" pcid (dirStr dir)).2 uid).map
            (fun u => u.given)
          = some (voter.given + dirVal dir)) ∧
    (∀ (db : DB) (archiveDays now : Int) (uid pcid : Nat) (dir : Bool)
        (voter : UserR) (target : CommentR) (post : PostR) (qv : CommentVoteR),
      userRow db uid = some voter →
      (dir = false → 0 ≤ voter.given) →
      commentRow db pcid = some target →
      target.status = none →
      postRow db target.pid = some post →
      ¬ target.uid = uid →
      is_sub_banned db now post.sid uid = false →
      ¬ (now - target.time > archiveDays * 86400) →
      commentVoteRow db pcid uid = some qv →
      qv.positive = !dir →
      (cast_vote db archiveDays now uid "comment" pcid (dirStr dir)).1
          = VoteResult.ok (target.score + dirVal dir * 2) false ∧
      commentVoteRow (cast_vote db archiveDays now uid "comment" pcid (dirStr dir)).2 pcid uid
          = some { qv with positive := dir } ∧
      commentRow (cast_vote db archiveDays now uid "comment" pcid (dirStr dir)).2 pcid
          = some { target with
              score := target.score + dirVal dir * 2,
              upvotes := target.upvotes + (if dir then 1 else -1),
              downvotes := target.downvotes + (if dir then -1 else 1) } ∧
      (userRow (cast_vote db archiveDays now uid "comment" pcid (dirStr dir)).2 target.uid).map
            (fun u => u.score)
          = (userRow db target.uid).map (fun u => u.score + dirVal dir * 2) ∧
      (userRow (cast_vote db archiveDays now uid "comment" pcid (dirStr dir)).2 uid).map
            (fun u => u.given)
          = some (voter.given + dirVal dir)) := by
  constructor
  · intro db archiveDays now uid pcid dir voter target qv hu hg ht htd hban harch hv hqv
    simp only [userRow] at hu
    simp only [postRow] at ht
    simp only [postVoteRow] at hv
    have htp : target.pid = pcid := by simpa using List.find?_some ht
    rw [cast_vote_post_flip db archiveDays now uid pcid dir voter target qv
      hu hg ht htd hban harch hv hqv]
    refine ⟨rfl, ?_, ?_, ?_, ?_⟩
    · simp only [postVoteRow]
      rw [find?_setPostVote, hv]
      rfl
    · simp only [postRow]
      cases dir <;>
        · simp only [if_true, if_false, Bool.false_eq_true]
          rw [postRow_updatePost, ht]
          · simp [htp]
            omega
          · intro x
            rfl
    · simp only [userRow]
      rw [userRow_updateUser, userRow_updateUser]
      rotate_left
      · intro x
        rfl
      · intro x
        rfl
      cases hb : db.users.find? (fun x => x.uid = target.uid) with
      | none => simp
      | some u =>
          have hu2 : u.uid = target.uid := by simpa using List.find?_some hb
          simp only [Option.map_some']
          split <;> split <;> simp_all
    · simp only [userRow]
      rw [userRow_updateUser, userRow_updateUser, hu]
      rotate_left
      · intro x
        rfl
      · intro x
        rfl
      have hvu : voter.uid = uid := by simpa using List.find?_some hu
      simp only [Option.map_some']
      split <;> simp_all
  · intro db archiveDays now uid pcid dir voter target post qv
      hu hg ht hst hp hself hban harch hv hqv
    simp only [userRow] at hu
    simp only [commentRow] at ht
    simp only [postRow] at hp
    simp only [commentVoteRow] at hv
    have htc : target.cid = pcid := by simpa using List.find?_some ht
    rw [cast_vote_comment_flip db archiveDays now uid pcid dir voter target post qv
      hu hg ht hst hp hself hban harch hv hqv]
    refine ⟨rfl, ?_, ?_, ?_, ?_⟩
    · simp only [commentVoteRow]
      rw [find?_setCommentVote, hv]
      rfl
    · simp only [commentRow]
      cases dir <;>
        · simp only [if_true, if_false, Bool.false_eq_true]
          rw [commentRow_updateComment, ht]
          · simp [htc]
            omega
          · intro x
            rfl
    · simp only [userRow]
      rw [userRow_updateUser, userRow_updateUser]
      rotate_left
      · intro x
        rfl
      · intro x
        rfl
      cases hb : db.users.find? (fun x => x.uid = target.uid) with
      | none => simp
      | some u =>
          have hu2 : u.uid = target.uid := by simpa using List.find?_some hb
          simp only [Option.map_some']
          split <;> split <;> simp_all
    · simp only [userRow]
      rw [userRow_updateUser, userRow_updateUser, hu]
      rotate_left
      · intro x
        rfl
      · intro x
        rfl
      have hvu : voter.uid = uid := by simpa using List.find?_some hu
      simp only [Option.map_some']
      split <;> simp_all

/-- Witness for the amended C2 on the concrete fixture: flipping the upvote
on post 100 and on comment 200 to downvotes. -/
theorem claim_C2_witness :
    ((cast_vote dbC1 60 2000 1 "post" 100 (dirStr false)).1
        = VoteResult.ok (postC1.score + dirVal false * 2) false ∧
      postVoteRow (cast_vote dbC1 60 2000 1 "post" 100 (dirStr false)).2 100 1
        = some { pid := 100, uid := 1, positive := false } ∧
      postRow (cast_vote dbC1 60 2000 1 "post" 100 (dirStr false)).2 100
          = some { postC1 with
              score := postC1.score + dirVal false * 2,
              upvotes := postC1.upvotes + (if false then 1 else -1),
              downvotes := postC1.downvotes + (if false then -1 else 1) } ∧
      (userRow (cast_vote dbC1 60 2000 1 "post" 100 (dirStr false)).2 postC1.uid).map
            (fun u => u.score)
          = (userRow dbC1 postC1.uid).map (fun u => u.score + dirVal false * 2) ∧
      (userRow (cast_vote dbC1 60 2000 1 "post" 100 (dirStr false)).2 1).map
            (fun u => u.given)
          = some (voterC1.given + dirVal false)) ∧
    ((cast_vote dbC1 60 2000 1 "comment" 200 (dirStr false)).1
        = VoteResult.ok (commentC1.score + dirVal false * 2) false ∧
      commentVoteRow (cast_vote dbC1 60 2000 1 "comment" 200 (dirStr false)).2 200 1
        = some { cid := 200, uid := 1, positive := false } ∧
      commentRow (cast_vote dbC1 60 2000 1 "comment" 200 (dirStr false)).2 200
          = some { commentC1 with
              score := commentC1.score + dirVal false * 2,
              upvotes := commentC1.upvotes + (if false then 1 else -1),
              downvotes := commentC1.downvotes + (if false then -1 else 1) } ∧
      (userRow (cast_vote dbC1 60 2000 1 "comment" 200 (dirStr false)).2 commentC1.uid).map
            (fun u => u.score)
          = (userRow dbC1 commentC1.uid).map (fun u => u.score + dirVal false * 2) ∧
      (userRow (cast_vote dbC1 60 2000 1 "comment" 200 (dirStr false)).2 1).map
            (fun u => u.given)
          = some (voterC1.given + dirVal false)) :=
  ⟨claim_C2.1 dbC1 60 2000 1 100 false voterC1 postC1
      { pid := 100, uid := 1, positive := true }
      (by decide) (by decide) (by decide) (by decide) (by decide) (by decide)
      (by decide) (by decide),
   claim_C2.2 dbC1 60 2000 1 200 false voterC1 commentC1 postC1
      { cid := 200, uid := 1, positive := true }
      (by decide) (by decide) (by decide) (by decide) (by decide) (by decide)
      (by decide) (by decide) (by decide) (by decide)⟩

/-- Counterexample to C3 as stated: on the concrete fixture, a vote on the
archived post 100 is rejected with HTTP 400, not the claimed 403. -/
theorem claim_C3_counterexample :
    cast_vote dbC1 60 (1000 + 60 * 86400 + 1) 1 "post" 100 (dirStr true)
        = (VoteResult.err 400 "Post is archived", dbC1) ∧
    ¬ (cast_vote dbC1 60 (1000 + 60 * 86400 + 1) 1 "post" 100 (dirStr true)).1
        = VoteResult.err 403 "Post is archived" := by
  constructor
  · decide
  · decide

/-- `create_comment` on an archived post (api3.py 333-334): rejected with
HTTP 403 before any write. -/
theorem create_comment_archived
    (db : DB) (now : Int) (lvl : Nat) (ml : List (List String)) (newCid uid : Nat)
    (p : Nat) (parentcid : Option Nat) (c : String) (user : UserR) (post : PostR)
    (hp0 : ¬ p = 0) (hc0 : ¬ c = "")
    (hu : db.users.find? (fun u => u.uid = uid) = some user)
    (ht : db.posts.find? (fun x => x.pid = p) = some post)
    (htd : post.deleted = 0)
    (harch : now - post.posted > 60 * 86400) :
    create_comment db now lvl ml newCid uid (some p) parentcid (some c)
      = (CommentResult.err 403 "Post is archived", db) := by
  unfold create_comment
  rw [if_neg (by simp [hp0, hc0])]
  simp only [Option.getD_some]
  rw [hu, ht]
  simp [htd, harch]
  intro hcon
  exact absurd harch (by omega)

/-- C3 as amended: a mutation against archived content is rejected with no
state change, but the status codes differ by operation: `cast_vote` answers
HTTP 400 ("Post is archived") for posts older than the archive window and
for comments whose own creation time is older than the window (the check
reads the comment's `time`, not the parent post's `posted`), while
`create_comment` answers HTTP 403 for posts older than 60 days. -/
theorem claim_C3 :
    (∀ (db : DB) (archiveDays now : Int) (uid pcid : Nat) (dir : Bool)
        (voter : UserR) (target : PostR),
      userRow db uid = some voter →
      (dir = false → 0 ≤ voter.given) →
      postRow db pcid = some target →
      target.deleted = 0 →
      is_sub_banned db now target.sid uid = false →
      now - target.posted > archiveDays * 86400 →
      cast_vote db archiveDays now uid "post" pcid (dirStr dir)
        = (VoteResult.err 400 "Post is archived", db)) ∧
    (∀ (db : DB) (archiveDays now : Int) (uid pcid : Nat) (dir : Bool)
        (voter : UserR) (target : CommentR) (post : PostR),
      userRow db uid = some voter →
      (dir = false → 0 ≤ voter.given) →
      commentRow db pcid = some target →
      target.status = none →
      postRow db target.pid = some post →
      ¬ target.uid = uid →
      is_sub_banned db now post.sid uid = false →
      now - target.time > archiveDays * 86400 →
      cast_vote db archiveDays now uid "comment" pcid (dirStr dir)
        = (VoteResult.err 400 "Post is archived", db)) ∧
    (∀ (db : DB) (now : Int) (lvl : Nat) (ml : List (List String))
        (newCid uid p : Nat) (parentcid : Option Nat) (c : String)
        (user : UserR) (post : PostR),
      ¬ p = 0 → ¬ c = "" →
      userRow db uid = some user →
      postRow db p = some post →
      post.deleted = 0 →
      now - post.posted > 60 * 86400 →
      create_comment db now lvl ml newCid uid (some p) parentcid (some c)
        = (CommentResult.err 403 "Post is archived", db)) := by
  refine ⟨?_, ?_, ?_⟩
  · intro db archiveDays now uid pcid dir voter target hu hg ht htd hban harch
    simp only [userRow] at hu
    simp only [postRow] at ht
    exact cast_vote_post_archived db archiveDays now uid pcid dir voter target
      hu hg ht htd hban harch
  · intro db archiveDays now uid pcid dir voter target post hu hg ht hst hp hself hban harch
    simp only [userRow] at hu
    simp only [commentRow] at ht
    simp only [postRow] at hp
    exact cast_vote_comment_archived db archiveDays now uid pcid dir voter target post
      hu hg ht hst hp hself hban harch
  · intro db now lvl ml newCid uid p parentcid c user post hp0 hc0 hu ht htd harch
    simp only [userRow] at hu
    simp only [postRow] at ht
    exact create_comment_archived db now lvl ml newCid uid p parentcid c user post
      hp0 hc0 hu ht htd harch

/-- Witness for the amended C3 on the concrete fixture, 1 second past the
archive window. -/
theorem claim_C3_witness :
    cast_vote dbC1 60 (1000 + 60 * 86400 + 1) 1 "post" 100 (dirStr true)
        = (VoteResult.err 400 "Post is archived", dbC1) ∧
    cast_vote dbC1 60 (1500 + 60 * 86400 + 1) 1 "comment" 200 (dirStr true)
        = (VoteResult.err 400 "Post is archived", dbC1) ∧
    create_comment dbC1 (1000 + 60 * 86400 + 1) 0 [] 300 1 (some 100) none (some "hi")
        = (CommentResult.err 403 "Post is archived", dbC1) :=
  ⟨claim_C3.1 dbC1 60 (1000 + 60 * 86400 + 1) 1 100 true voterC1 postC1
      (by decide) (by decide) (by decide) (by decide) (by decide) (by decide),
   claim_C3.2.1 dbC1 60 (1500 + 60 * 86400 + 1) 1 200 true voterC1 commentC1 postC1
      (by decide) (by decide) (by decide) (by decide) (by decide) (by decide)
      (by decide) (by decide),
   claim_C3.2.2 dbC1 (1000 + 60 * 86400 + 1) 0 [] 300 1 100 none "hi" voterC1 postC1
      (by decide) (by decide) (by decide) (by decide) (by decide) (by decide)⟩

/-! ## Post creation (api3.py: `create_post`, lines 432-553) -/

/-- `misc.WHITESPACE` (misc.py 55-56), the character set stripped from
titles. -/
def WHITESPACE : String :=
  "\u0009\u000A\u000B\u000C\u000D \u0085             ​   　᠎​‌‍⁠﻿­￼ "

/-- Python's `str.strip(chars)`: remove leading and trailing characters that
appear in `chars`. -/
def stripChars (s : String) (chars : String) : String :=
  let cs := chars.toList
  let l := s.toList.dropWhile (fun c => c ∈ cs)
  String.mk ((l.reverse.dropWhile (fun c => c ∈ cs)).reverse)

/-- `get_user_level` (misc.py 682-695) with the score taken from the user
row: level is `int(math.sqrt(xp / 10))` for positive xp (the float sqrt is
modelled exactly: for integers `⌊√(x/10)⌋ = Nat.sqrt ⌊x/10⌋`), and 0 for
non-positive xp.  `badgeScore uid` stands for the sum of
`badges.badges_for_user(uid)` scores (the badge registry is an external
boundary).  `User.get` raises on a missing uid; create_post only calls this
after fetching the user, so the `none` default is unreachable there. -/
def get_user_level (db : DB) (badgeScore : Nat → Int) (uid : Nat) : Nat × Int :=
  match db.users.find? (fun u => u.uid = uid) with
  | none => (0, 0)
  | some user =>
      let xp := user.score + badgeScore uid
      if xp ≤ 0 then (0, xp)
      else (Nat.sqrt (xp.toNat / 10), xp)

/-- First `SiteMetadata` value for a key (`SiteMetadata.get`). -/
def siteMetaValue (db : DB) (key : String) : Option String :=
  (db.siteMetadata.find? (fun r => r.1 = key)).map (fun r => r.2)

/-- The value `getSubData(sid)` reports for a non-repeatable `SubMetadata`
key: the dict comprehension keeps the last row. -/
def subMetaValue (db : DB) (sid : Nat) (key : String) : Option String :=
  ((db.subMetadata.filter (fun r => r.1 = sid ∧ r.2.1 = key)).map (fun r => r.2.2)).getLast?

/-- `Sub.update(...).where(Sub.sid == s)`. -/
def updateSub (subs : List SubR) (s : Nat) (f : SubR → SubR) : List SubR :=
  subs.map (fun x => if x.sid = s then f x else x)

/-- The caller's post count in one sub over the last day (api3.py 492). -/
def lposts_count (db : DB) (uid sid : Nat) (now : Int) : Nat :=
  (db.posts.filter (fun p => p.uid = uid ∧ p.sid = sid ∧ p.posted > now - 86400)).length

/-- The caller's sitewide post count over the last day (api3.py 493). -/
def tposts_count (db : DB) (uid : Nat) (now : Int) : Nat :=
  (db.posts.filter (fun p => p.uid = uid ∧ p.posted > now - 86400)).length

/-- The JSON response of `create_post`.  `challengeRequired`/`challengeFailed`
are the HTTP 423 bodies produced by the two captcha error handlers;
`typeError` marks an unhandled Python `TypeError` (HTTP 500) — notably
api3.py 504 calls `misc.is_domain_banned(link)` with one argument while the
function requires two, so every link post that reaches that line raises. -/
inductive PostResult where
  | ok (pid : Nat) (sub : String)
  | err (code : Nat) (msg : String)
  | challengeRequired
  | challengeFailed
  | typeError (msg : String)
deriving DecidableEq, Repr

/-- The tail of `create_post` (api3.py 523-553) reached once every guard and
the captcha challenge have passed: insert the post row with the author's own
upvote baked in, bump the sub's post counter, record the author's vote row,
increment the author's `given`, and run mention processing over content and
title. -/
def create_post_finish (db : DB) (caps : KVStore) (now : Int) (currentUserLevel : Nat)
    (mlContent mlTitle : List (List String)) (newPid uid : Nat) (sub : SubR)
    (ptypev : Nat) (titlev contentv : String) (nsfw : Bool) :
    PostResult × DB × KVStore :=
  let post : PostR :=
    { pid := newPid, sid := sub.sid, uid := uid,
      title := stripChars titlev WHITESPACE,
      content := some contentv, link := none,
      posted := now, score := 1, upvotes := 1, downvotes := 0,
      deleted := 0, comments := 0, ptype := ptypev,
      nsfw := (if subMetaValue db sub.sid "nsfw" = some "1" then true else nsfw),
      thumbnail := "" }
  let db := { db with posts := db.posts ++ [post] }
  let db := { db with subs :=
    (updateSub db.subs sub.sid (fun s => { s with posts := s.posts + 1 })) }
  let db := { db with postVotes :=
    (db.postVotes ++ [({ pid := newPid, uid := uid, positive := true } : PostVoteR)]) }
  let db := { db with users :=
    (updateUser db.users uid (fun u => { u with given := u.given + 1 })) }
  let notifs1 := workWithMentions db.users mlContent none
    sub.sid newPid none currentUserLevel uid
  let notifs2 := workWithMentions db.users mlTitle none
    sub.sid newPid none currentUserLevel uid
  let db := { db with notifications :=
    (db.notifications ++ notifs1 ++ notifs2) }
  (.ok newPid sub.name, db, caps)

/-- `create_post` (api3.py 432-553).  `caps` is the captcha store threaded
through `check_challenge`/`validate_captcha`; `mlContent`/`mlTitle` are the
mention-regex scans of the body and the title; `newPid` stands for the
created row's id; the once-per-30s rate limiter wraps the handler and is not
part of its body.  Socket pushes, the thumbnail fetch (dead: only link posts
would need it and they raise first) and the template render are not stored
state. -/
def create_post (db : DB) (caps : KVStore) (testing development required : Bool)
    (badgeScore : Nat → Int) (now : Int) (currentUserLevel : Nat)
    (mlContent mlTitle : List (List String)) (newPid : Nat) (uid : Nat)
    (subName : Option String) (ptype : Option Nat) (title : Option String)
    (link : Option String) (content : Option String) (nsfw : Bool)
    (challengeToken challengeResponse : Option String) :
    PostResult × DB × KVStore :=
  -- `if not sub or ptype is None or not title`
  if subName = none ∨ subName = some "" ∨ ptype = none ∨ title = none ∨ title = some "" then
    (.err 400 "Missing required parameters", db, caps)
  else
    let ptypev := ptype.getD 0
    let titlev := title.getD ""
    if ¬ (ptypev = 0 ∨ ptypev = 1 ∨ ptypev = 3) then
      (.err 400 "Illegal value for ptype", db, caps)
    else if ptypev = 3 then
      (.err 400 "This method does not support poll creation", db, caps)
    else
      match db.users.find? (fun u => u.uid = uid) with
      | none => (.err 403 "Unknown error. User disappeared", db, caps)
      | some user =>
        if siteMetaValue db "enable_posting" = some "False" ∨
            siteMetaValue db "enable_posting" = some "0" then
          (.err 400 "Posting has been temporarily disabled", db, caps)
        else
          match db.subs.find? (fun s => lowerStr s.name = lowerStr (subName.getD "")) with
          | none => (.err 404 "Sub does not exist", db, caps)
          | some sub =>
            if lowerStr sub.name = "all" ∨ lowerStr sub.name = "new" ∨
                lowerStr sub.name = "hot" ∨ lowerStr sub.name = "top" ∨
                lowerStr sub.name = "admin" ∨ lowerStr sub.name = "home" then
              (.err 403 "You can't post on this sub", db, caps)
            else if is_sub_banned db now sub.sid uid then
              (.err 403 "You're banned from this sub", db, caps)
            else if subMetaValue db sub.sid "restricted" = some "1" then
              (.err 403 "Only moderators can post on this sub", db, caps)
            else if (stripChars titlev WHITESPACE).length < 3 then
              (.err 400 "Post title is too short", db, caps)
            else if titlev.length > 350 then
              (.err 400 "Post title is too long", db, caps)
            else if (get_user_level db badgeScore uid).1 < 7 ∧
                (lposts_count db uid sub.sid now > 10 ∨ tposts_count db uid now > 25) then
              (.err 403 "You have posted too much today", db, caps)
            else if ptypev = 1 then
              -- `if not 'link'` on line 498 is constant-false and skipped;
              -- `if content` rejects accompanying text, then
              -- `misc.is_domain_banned(link)` raises TypeError (arity)
              if ¬ (content = none ∨ content = some "") then
                (.err 400 "Link posts do not accept content", db, caps)
              else
                (.typeError "is_domain_banned() missing 1 required positional argument", db, caps)
            else
              -- ptypev = 0 (text post)
              if ¬ (link = none ∨ link = some "") then
                (.err 400 "Text posts do not accept link", db, caps)
              else
                match content with
                | none => (.typeError "object of type NoneType has no len()", db, caps)
                | some contentv =>
                  if contentv.length > 16384 then
                    (.err 400 "Post content is too long", db, caps)
                  else if (get_user_level db badgeScore user.uid).1 ≤ 4 then
                    -- check_challenge(): missing parameters raise
                    -- ChallengeRequired; a wrong response raises ChallengeWrong
                    if challengeToken = none ∨ challengeToken = some "" ∨
                        challengeResponse = none ∨ challengeResponse = some "" then
                      (.challengeRequired, db, caps)
                    else
                      let v := validate_captcha testing development required caps
                        (challengeToken.getD "") (challengeResponse.getD "")
                      if v.1 then
                        create_post_finish db v.2 now currentUserLevel mlContent mlTitle
                          newPid uid sub ptypev titlev contentv nsfw
                      else (.challengeFailed, db, v.2)
                  else
                    create_post_finish db caps now currentUserLevel mlContent mlTitle
                      newPid uid sub ptypev titlev contentv nsfw

/-- A post fixture for the throttling claims. -/
def postedToday (i : Nat) : PostR :=
  { pid := i + 1, sid := 10, uid := 5, title := "t", content := some "c", link := none,
    ptype := 0, nsfw := false, deleted := 0, score := 1, upvotes := 1, downvotes := 0,
    comments := 0, posted := 99990, thumbnail := "" }

/-- Fixture: a level-5 user (score 300 → level ⌊√30⌋ = 5) with `n` posts in
sub 10 during the last day. -/
def dbC4 (n : Nat) (score : Int) : DB :=
  { users := [{ uid := 5, name := "poster", status := 0, score := score, given := 0,
                crypto := 1, password := "h" }],
    subs := [{ sid := 10, name := "s", posts := 10 }],
    posts := (List.range n).map postedToday,
    comments := [], postVotes := [], commentVotes := [], subBans := [], userIgnores := [],
    messages := [], notifications := [], siteMetadata := [], subMetadata := [],
    userMetadata := [] }

/-- `create_post_finish` always reports success. -/
theorem create_post_finish_fst (db : DB) (caps : KVStore) (now : Int)
    (currentUserLevel : Nat) (mlContent mlTitle : List (List String))
    (newPid uid : Nat) (sub : SubR) (ptypev : Nat) (titlev contentv : String)
    (nsfw : Bool) :
    (create_post_finish db caps now currentUserLevel mlContent mlTitle newPid uid
        sub ptypev titlev contentv nsfw).1 = PostResult.ok newPid sub.name := rfl

/-- Counterexample to C4 as stated: a caller below level 7 (here level 0,
score 0) who already has exactly 10 posts in the target sub today is *not*
rejected — the 11th post succeeds, because api3.py 494 uses the strict
comparison `lposts > 10`.  (The request runs under the testing flag so the
level-0 caller's captcha validates.) -/
theorem claim_C4_counterexample :
    (get_user_level (dbC4 10 0) (fun _ => 0) 5).1 < 7 ∧
    lposts_count (dbC4 10 0) 5 10 100000 = 10 ∧
    (create_post (dbC4 10 0) [] true false true (fun _ => 0) 100000 0 [] [] 500 5
        (some "s") (some 0) (some "hello") none (some "x") false (some "t") (some "r")).1
      = PostResult.ok 500 "s" := by
  refine ⟨by decide, by decide, by decide⟩

/-- A returned error other than the throttle rejection is not the throttle
rejection. -/
theorem err_ne_cap {db : DB} {caps : KVStore} {c : Nat} {m : String}
    (hne : ¬ (c = 403 ∧ m = "You have posted too much today")) :
    ((PostResult.err c m, db, caps) : PostResult × DB × KVStore).1
      ≠ PostResult.err 403 "You have posted too much today" := by
  intro h
  injection h with h1 h2
  exact hne ⟨h1, h2⟩

/-- C4 as amended: for a caller below user level 7, `create_post` rejects
the request with HTTP 403 ("You have posted too much today") when the caller
already has *more than* 10 posts in the target sub in the last day, or more
than 25 sitewide (with exactly 10 / 25 the request still passes, by the
strict `>` comparisons); a caller at or above level 7 never receives that
rejection. -/
theorem claim_C4 :
    (∀ (db : DB) (caps : KVStore) (testing development required : Bool)
        (badgeScore : Nat → Int) (now : Int) (curLvl : Nat)
        (mlC mlT : List (List String)) (newPid uid : Nat)
        (subName : Option String) (ptype : Option Nat) (title : Option String)
        (link content : Option String) (nsfw : Bool) (ctok cresp : Option String)
        (user : UserR) (sub : SubR),
      ¬ (subName = none ∨ subName = some "" ∨ ptype = none ∨
          title = none ∨ title = some "") →
      (ptype.getD 0 = 0 ∨ ptype.getD 0 = 1) →
      userRow db uid = some user →
      ¬ (siteMetaValue db "enable_posting" = some "False" ∨
          siteMetaValue db "enable_posting" = some "0") →
      db.subs.find? (fun s => lowerStr s.name = lowerStr (subName.getD "")) = some sub →
      ¬ (lowerStr sub.name = "all" ∨ lowerStr sub.name = "new" ∨
          lowerStr sub.name = "hot" ∨ lowerStr sub.name = "top" ∨
          lowerStr sub.name = "admin" ∨ lowerStr sub.name = "home") →
      is_sub_banned db now sub.sid uid = false →
      ¬ subMetaValue db sub.sid "restricted" = some "1" →
      ¬ (stripChars (title.getD "") WHITESPACE).length < 3 →
      ¬ (title.getD "").length > 350 →
      (get_user_level db badgeScore uid).1 < 7 →
      (lposts_count db uid sub.sid now > 10 ∨ tposts_count db uid now > 25) →
      create_post db caps testing development required badgeScore now curLvl
          mlC mlT newPid uid subName ptype title link content nsfw ctok cresp
        = (PostResult.err 403 "You have posted too much today", db, caps)) ∧
    (∀ (db : DB) (caps : KVStore) (testing development required : Bool)
        (badgeScore : Nat → Int) (now : Int) (curLvl : Nat)
        (mlC mlT : List (List String)) (newPid uid : Nat)
        (subName : Option String) (ptype : Option Nat) (title : Option String)
        (link content : Option String) (nsfw : Bool) (ctok cresp : Option String),
      7 ≤ (get_user_level db badgeScore uid).1 →
      (create_post db caps testing development required badgeScore now curLvl
          mlC mlT newPid uid subName ptype title link content nsfw ctok cresp).1
        ≠ PostResult.err 403 "You have posted too much today") := by
  constructor
  · intro db caps testing development required badgeScore now curLvl mlC mlT newPid uid
      subName ptype title link content nsfw ctok cresp user sub
      hmiss hpt hu hen hsub hres hban hrestr htshort htlong hlvl hcnt
    simp only [userRow] at hu
    unfold create_post
    have hpt3 : ¬ (ptype.getD 0 = 3) := by rcases hpt with h | h <;> omega
    rw [if_neg hmiss, if_neg (by rcases hpt with h | h <;> simp [h]), if_neg hpt3, hu]
    simp only []
    rw [if_neg hen, hsub]
    simp only []
    rw [if_neg hres]
    simp only [hban, Bool.false_eq_true, if_false]
    rw [if_neg hrestr, if_neg htshort, if_neg htlong, if_pos ⟨hlvl, hcnt⟩]
  · intro db caps testing development required badgeScore now curLvl mlC mlT newPid uid
      subName ptype title link content nsfw ctok cresp hlvl
    unfold create_post
    by_cases c1 : subName = none ∨ subName = some "" ∨ ptype = none ∨
        title = none ∨ title = some ""
    · rw [if_pos c1]
      exact err_ne_cap (by decide)
    rw [if_neg c1]
    simp only []
    by_cases c2 : ¬ (ptype.getD 0 = 0 ∨ ptype.getD 0 = 1 ∨ ptype.getD 0 = 3)
    · rw [if_pos c2]
      exact err_ne_cap (by decide)
    rw [if_neg c2]
    by_cases c3 : ptype.getD 0 = 3
    · rw [if_pos c3]
      exact err_ne_cap (by decide)
    rw [if_neg c3]
    cases hfu : db.users.find? (fun u => u.uid = uid) with
    | none =>
        exact err_ne_cap (by decide)
    | some user =>
      simp only []
      by_cases c4 : siteMetaValue db "enable_posting" = some "False" ∨
          siteMetaValue db "enable_posting" = some "0"
      · rw [if_pos c4]
        exact err_ne_cap (by decide)
      rw [if_neg c4]
      cases hfs : db.subs.find? (fun s => lowerStr s.name = lowerStr (subName.getD "")) with
      | none =>
          exact err_ne_cap (by decide)
      | some sub =>
        simp only []
        by_cases c5 : lowerStr sub.name = "all" ∨ lowerStr sub.name = "new" ∨
            lowerStr sub.name = "hot" ∨ lowerStr sub.name = "top" ∨
            lowerStr sub.name = "admin" ∨ lowerStr sub.name = "home"
        · rw [if_pos c5]
          exact err_ne_cap (by decide)
        rw [if_neg c5]
        by_cases c6 : is_sub_banned db now sub.sid uid = true
        · rw [if_pos c6]
          exact err_ne_cap (by decide)
        rw [if_neg c6]
        by_cases c7 : subMetaValue db sub.sid "restricted" = some "1"
        · rw [if_pos c7]
          exact err_ne_cap (by decide)
        rw [if_neg c7]
        by_cases c8 : (stripChars (title.getD "") WHITESPACE).length < 3
        · rw [if_pos c8]
          exact err_ne_cap (by decide)
        rw [if_neg c8]
        by_cases c9 : (title.getD "").length > 350
        · rw [if_pos c9]
          exact err_ne_cap (by decide)
        rw [if_neg c9]
        rw [if_neg (fun hc => absurd hc.1 (by omega))]
        by_cases c10 : ptype.getD 0 = 1
        · rw [if_pos c10]
          by_cases c11 : ¬ (content = none ∨ content = some "")
          · rw [if_pos c11]
            exact err_ne_cap (by decide)
          · rw [if_neg c11]
            intro h
            injection h
        · rw [if_neg c10]
          by_cases c12 : ¬ (link = none ∨ link = some "")
          · rw [if_pos c12]
            exact err_ne_cap (by decide)
          rw [if_neg c12]
          cases content with
          | none =>
              intro h
              injection h
          | some contentv =>
            simp only []
            by_cases c13 : contentv.length > 16384
            · rw [if_pos c13]
              exact err_ne_cap (by decide)
            rw [if_neg c13]
            by_cases c14 : (get_user_level db badgeScore user.uid).1 ≤ 4
            · rw [if_pos c14]
              by_cases c15 : ctok = none ∨ ctok = some "" ∨ cresp = none ∨ cresp = some ""
              · rw [if_pos c15]
                intro h
                injection h
              rw [if_neg c15]
              by_cases c16 : (validate_captcha testing development required caps
                  (ctok.getD "") (cresp.getD "")).1 = true
              · rw [if_pos c16]
                intro h
                rw [create_post_finish_fst] at h
                injection h
              · rw [if_neg c16]
                intro h
                injection h
            · rw [if_neg c14]
              intro h
              rw [create_post_finish_fst] at h
              injection h

/-- Witness for the amended C4: with 11 posts already today the level-5 user
is rejected; a level-7 user (score 490) with 30 posts today is not throttled. -/
theorem claim_C4_witness :
    create_post (dbC4 11 300) [] false false true (fun _ => 0) 100000 0 [] [] 500 5
        (some "s") (some 0) (some "hello") none (some "x") false none none
      = (PostResult.err 403 "You have posted too much today", dbC4 11 300, []) ∧
    (create_post (dbC4 30 490) [] false false true (fun _ => 0) 100000 0 [] [] 500 5
        (some "s") (some 0) (some "hello") none (some "x") false none none).1
      ≠ PostResult.err 403 "You have posted too much today" := by
  have h30 : Nat.sqrt 30 = 5 := by simpa using Nat.sqrt_add_eq 5 (show 5 ≤ 5 + 5 by omega)
  have h49 : Nat.sqrt 49 = 7 := by simpa using Nat.sqrt_eq 7
  have hge11 : get_user_level (dbC4 11 300) (fun _ => 0) 5 = (5, 300) := by
    simp [get_user_level, dbC4, h30]
  have hge30 : get_user_level (dbC4 30 490) (fun _ => 0) 5 = (7, 490) := by
    simp [get_user_level, dbC4, h49]
  exact ⟨claim_C4.1 (dbC4 11 300) [] false false true (fun _ => 0) 100000 0 [] [] 500 5
      (some "s") (some 0) (some "hello") none (some "x") false none none
      { uid := 5, name := "poster", status := 0, score := 300, given := 0,
        crypto := 1, password := "h" }
      { sid := 10, name := "s", posts := 10 }
      (by decide) (by decide) (by decide) (by decide) (by decide) (by decide)
      (by decide) (by decide) (by decide) (by decide) (by simp [hge11]) (by decide),
   claim_C4.2 (dbC4 30 490) [] false false true (fun _ => 0) 100000 0 [] [] 500 5
      (some "s") (some 0) (some "hello") none (some "x") false none none
      (by simp [hge30])⟩

/-- Fixture for C6: three users; uid 1 posts, uid 3 is the recipient. -/
def usersC6 : List UserR :=
  [{ uid := 1, name := "Alice", status := 0, score := 0, given := 0, crypto := 1,
     password := "a" },
   { uid := 2, name := "Bob", status := 0, score := 0, given := 0, crypto := 1,
     password := "b" },
   { uid := 3, name := "Carol", status := 0, score := 0, given := 0, crypto := 1,
     password := "c" }]

/-- Fixture for C6: regex match tuples mentioning Bob, the poster Alice, the
recipient Carol, and a non-existent name. -/
def mlC6 : List (List String) :=
  [["x", "/u/", "bob"], ["y", "@", "alice"], ["z", "/u/", "carol"],
   ["w", "@", "nobody"]]

/-- C6: mention processing creates at most `mentionCap` notifications, where
the cap is 15 above level 30, 10 above level 20 and 5 otherwise (the level
passed at the api3 call sites is `current_user.get_user_level()[0]`, and
`current_user` there is the poster); and every created notification targets
an existing user who is neither the posting user nor the recipient
(misc.py 607-646). -/
theorem claim_C6 :
    ∀ (users : List UserR) (matchList : List (List String))
      (receivedby : Option Nat) (postSid postPid : Nat) (cid : Option Nat)
      (posterLevel cUserUid : Nat),
      (workWithMentions users matchList receivedby postSid postPid cid
          posterLevel cUserUid).length ≤ mentionCap posterLevel ∧
      mentionCap posterLevel
        = (if posterLevel > 30 then 15 else if posterLevel > 20 then 10 else 5) ∧
      ∀ n ∈ workWithMentions users matchList receivedby postSid postPid cid
          posterLevel cUserUid,
        (∃ u ∈ users, u.uid = n.target) ∧ n.target ≠ cUserUid ∧
          some n.target ≠ receivedby := by
  intro users matchList receivedby postSid postPid cid posterLevel cUserUid
  refine ⟨?_, rfl, ?_⟩
  · unfold workWithMentions
    simp only []
    exact le_trans (List.length_filterMap_le _ _) (List.length_take_le _ _)
  · intro n hn
    unfold workWithMentions at hn
    simp only [] at hn
    rw [List.mem_filterMap] at hn
    obtain ⟨mtn, _hmem, hf⟩ := hn
    cases hu : users.find? (fun u => lowerStr u.name = lowerStr mtn) with
    | none =>
        rw [hu] at hf
        exact absurd hf (by simp)
    | some user =>
        rw [hu] at hf
        simp only [] at hf
        by_cases hc : user.uid ≠ cUserUid ∧ some user.uid ≠ receivedby
        · rw [if_pos hc] at hf
          injection hf with hf
          subst hf
          exact ⟨⟨user, List.mem_of_find?_eq_some hu, rfl⟩, hc.1, hc.2⟩
        · rw [if_neg hc] at hf
          exact absurd hf (by simp)

/-- Witness for C6: on the fixture only Bob is notified (Alice is the
poster, Carol the recipient, "nobody" does not exist), and the cap at
level 0 is 5. -/
theorem claim_C6_witness :
    (workWithMentions usersC6 mlC6 (some 3) 10 100 none 0 1).length ≤ mentionCap 0 ∧
    ((∃ u ∈ usersC6, u.uid = 2) ∧ (2 : Nat) ≠ 1 ∧ (some 2 : Option Nat) ≠ some 3) := by
  refine ⟨(claim_C6 usersC6 mlC6 (some 3) 10 100 none 0 1).1,
    (claim_C6 usersC6 mlC6 (some 3) 10 100 none 0 1).2.2
      { ntype := "POST_MENTION", sub := 10, post := 100, comment := none,
        sender := 1, target := 2 } (by decide)⟩

/-! ## C8: `get_post_comment_children` (api3.py 182-219)

The endpoint's own dispatch (post lookup, `null`/`0` normalisation, root
comment lookup and cross-post check, empty-comments shortcut) is modelled
faithfully.  Both calls into `misc.get_comment_tree` raise `TypeError` in
Python and are modelled as such: the function's signature
(misc.py 1480) is `get_comment_tree(pid, sid, comments, root=None,
only_after=None, ...)` with three required positional parameters, but
api3.py 213 calls `misc.get_comment_tree(comments, cid, lim)` — binding the
comment query to `pid`, the cid string to `sid` and the string `lim` to
`comments`, so `build_tree(list(lim))` iterates the characters of `lim` and
`i['parentcid']` on a one-character `str` raises
`TypeError: string indices must be integers` — and api3.py 215 calls
`misc.get_comment_tree(comments, cid)` with only two positional arguments,
raising `TypeError: get_comment_tree() missing 1 required positional
argument: 'comments'` before any work is done.  An uncaught `TypeError`
surfaces as HTTP 500, never as a comment tree. -/

/-- Result of `get_post_comment_children`: a JSON comment list, an error
response, or an uncaught Python `TypeError` (HTTP 500). -/
inductive ChildrenResult where
  | ok (comments : List CTree)
  | err (code : Nat) (msg : String)
  | typeError (msg : String)

/-- `get_post_comment_children(pid, cid, lim)` (api3.py 184-218); `lim = ""`
models the route variant without the `<lim>` segment. -/
def get_post_comment_children (db : DB) (pid : Nat) (cid lim : String) :
    ChildrenResult :=
  match db.posts.find? (fun p => p.pid = pid) with
  | none => ChildrenResult.err 404 "Post does not exist"
  | some post =>
    let cid := if cid = "null" then "0" else cid
    let rootCheck : Option ChildrenResult :=
      if cid ≠ "0" then
        match db.comments.find? (fun c => toString c.cid = cid) with
        | none => some (ChildrenResult.err 404 "Post does not exist")
        | some root =>
            if root.pid ≠ post.pid then
              some (ChildrenResult.err 400 "Comment does not belong to the given post")
            else none
      else none
    match rootCheck with
    | some r => r
    | none =>
      let comments := db.comments.filter (fun c => c.pid = pid)
      if comments.length = 0 then ChildrenResult.ok []
      else if lim ≠ "" then
        ChildrenResult.typeError "string indices must be integers"
      else if cid ≠ "0" then
        ChildrenResult.typeError
          "get_comment_tree() missing 1 required positional argument: 'comments'"
      else ChildrenResult.err 400 "Illegal comment id"

/-- Fixture for C8: post 100 with comment 200; post 101 with comment 300. -/
def dbC8 : DB :=
  { users := [], subs := [],
    posts := [
      { pid := 100, sid := 10, uid := 1, title := "a", link := none, content := "c",
        ptype := 0, nsfw := false, deleted := 0, score := 0, upvotes := 0,
        downvotes := 0, comments := 1, posted := 0, thumbnail := "" },
      { pid := 101, sid := 10, uid := 1, title := "b", link := none, content := "c",
        ptype := 0, nsfw := false, deleted := 0, score := 0, upvotes := 0,
        downvotes := 0, comments := 1, posted := 0, thumbnail := "" }],
    comments := [
      { cid := 200, pid := 100, uid := 1, content := "x", parentcid := none,
        score := 0, upvotes := 0, downvotes := 0, status := none, time := 0,
        lastedit := none },
      { cid := 300, pid := 101, uid := 1, content := "y", parentcid := none,
        score := 0, upvotes := 0, downvotes := 0, status := none, time := 0,
        lastedit := none }],
    postVotes := [], commentVotes := [], subBans := [], userIgnores := [],
    messages := [], notifications := [], siteMetadata := [], subMetadata := [],
    userMetadata := [] }

/-- C8 is wrong about the success paths: the 404 and cross-post 400
validations behave as claimed, but on a post that has comments the endpoint
never returns a branch or the whole tree.  With `cid` `'0'`/`'null'` and no
`lim` it answers 400 "Illegal comment id"; naming an existing comment of the
post (with or without `lim`) reaches a `misc.get_comment_tree` call whose
arguments do not fit the function's signature, so Python raises `TypeError`
(HTTP 500). -/
theorem claim_C8 :
    get_post_comment_children dbC8 999 "0" "" = ChildrenResult.err 404 "Post does not exist" ∧
    get_post_comment_children dbC8 100 "555" "" = ChildrenResult.err 404 "Post does not exist" ∧
    get_post_comment_children dbC8 100 "300" ""
      = ChildrenResult.err 400 "Comment does not belong to the given post" ∧
    get_post_comment_children dbC8 100 "null" "" = ChildrenResult.err 400 "Illegal comment id" ∧
    get_post_comment_children dbC8 100 "0" "" = ChildrenResult.err 400 "Illegal comment id" ∧
    get_post_comment_children dbC8 100 "200" ""
      = ChildrenResult.typeError
          "get_comment_tree() missing 1 required positional argument: 'comments'" ∧
    get_post_comment_children dbC8 100 "200" "5"
      = ChildrenResult.typeError "string indices must be integers" := by
  exact ⟨rfl, rfl, rfl, rfl, rfl, rfl, rfl⟩

/-! ## C9: `login` (api3.py 26-61)

`bcrypt.hashpw(password, stored)` is modelled as an abstract parameter
`hashpw : String → String → String`; the access/refresh tokens carry no
stored state and the success response is modelled by the identity it is
minted for. -/

/-- The JSON response of `login`. -/
inductive LoginResult where
  | ok (uid : Nat) (username : String)
  | err (code : Nat) (msg : String)
deriving DecidableEq, Repr

/-- `login()` (api3.py 26-61).  `isJson` models `request.is_json`;
`username`/`password` model `request.json.get(...)` with `none` for an
absent key (Python's `if not x` also treats the empty string as missing). -/
def login (db : DB) (hashpw : String → String → String) (isJson : Bool)
    (username password : Option String) : LoginResult :=
  if isJson = false then LoginResult.err 400 "Missing JSON in request"
  else if username = none ∨ username = some "" then
    LoginResult.err 400 "Missing username parameter"
  else if password = none ∨ password = some "" then
    LoginResult.err 400 "Missing password parameter"
  else
    match db.users.find? (fun u => lowerStr u.name = lowerStr (username.getD "")) with
    | none => LoginResult.err 401 "Bad username or password"
    | some user =>
      if user.status ≠ 0 then LoginResult.err 403 "Forbidden"
      else if user.crypto = 1 then
        if hashpw (password.getD "") user.password ≠ user.password then
          LoginResult.err 401 "Bad username or password"
        else LoginResult.ok user.uid user.name
      else LoginResult.err 400 "Bad user data"

/-- C9: when the account resolved from the username has a non-zero status,
`login` answers 403 "Forbidden" for every supplied password, and the
response is the same for any two passwords (api3.py 46-47 runs before the
bcrypt check at 49-54), for every password-hash function whatsoever. -/
theorem claim_C9 :
    ∀ (db : DB) (hashpw : String → String → String) (username p1 p2 : String)
      (user : UserR),
      username ≠ "" → p1 ≠ "" → p2 ≠ "" →
      db.users.find? (fun u => lowerStr u.name = lowerStr username) = some user →
      user.status ≠ 0 →
      login db hashpw true (some username) (some p1) = LoginResult.err 403 "Forbidden" ∧
      login db hashpw true (some username) (some p1)
        = login db hashpw true (some username) (some p2) := by
  intro db hashpw username p1 p2 user hu hp1 hp2 hfind hstatus
  have hlogin : ∀ p : String, p ≠ "" →
      login db hashpw true (some username) (some p) = LoginResult.err 403 "Forbidden" := by
    intro p hp
    unfold login
    rw [if_neg (by simp), if_neg (by simp [hu]), if_neg (by simp [hp])]
    simp only [Option.getD]
    rw [hfind]
    simp only []
    rw [if_pos hstatus]
  exact ⟨hlogin p1 hp1, by rw [hlogin p1 hp1, hlogin p2 hp2]⟩

/-- Witness for C9: a banned user (status 1) gets 403 both for the stored
password and for a wrong one, under a hash function that returns the stored
hash exactly when the password is correct. -/
theorem claim_C9_witness :
    ("banned" : String) ≠ "" ∧ ("hunter2" : String) ≠ "" ∧ ("wrong" : String) ≠ "" ∧
    ([{ uid := 9, name := "Banned", status := 1, score := 0, given := 0,
        crypto := 1, password := "hunter2" }] : List UserR).find?
        (fun u => lowerStr u.name = lowerStr "banned")
      = some { uid := 9, name := "Banned", status := 1, score := 0, given := 0,
               crypto := 1, password := "hunter2" } ∧
    login { users := [{ uid := 9, name := "Banned", status := 1, score := 0, given := 0,
                        crypto := 1, password := "hunter2" }],
            subs := [], posts := [], comments := [], postVotes := [], commentVotes := [],
            subBans := [], userIgnores := [], messages := [], notifications := [],
            siteMetadata := [], subMetadata := [], userMetadata := [] }
          (fun p h => if p = "hunter2" then h else "no") true
          (some "banned") (some "hunter2")
        = LoginResult.err 403 "Forbidden" ∧
    login { users := [{ uid := 9, name := "Banned", status := 1, score := 0, given := 0,
                        crypto := 1, password := "hunter2" }],
            subs := [], posts := [], comments := [], postVotes := [], commentVotes := [],
            subBans := [], userIgnores := [], messages := [], notifications := [],
            siteMetadata := [], subMetadata := [], userMetadata := [] }
          (fun p h => if p = "hunter2" then h else "no") true
          (some "banned") (some "hunter2")
        = login { users := [{ uid := 9, name := "Banned", status := 1, score := 0, given := 0,
                              crypto := 1, password := "hunter2" }],
                  subs := [], posts := [], comments := [], postVotes := [], commentVotes := [],
                  subBans := [], userIgnores := [], messages := [], notifications := [],
                  siteMetadata := [], subMetadata := [], userMetadata := [] }
                (fun p h => if p = "hunter2" then h else "no") true
                (some "banned") (some "wrong") := by
  refine ⟨by decide, by decide, by decide, by decide, ?_⟩
  exact claim_C9 _ (fun p h => if p = "hunter2" then h else "no")
    "banned" "hunter2" "wrong"
    { uid := 9, name := "Banned", status := 1, score := 0, given := 0,
      crypto := 1, password := "hunter2" }
    (by decide) (by decide) (by decide) (by decide) (by decide)

/-! ## C10: `get_settings` / `set_settings` (api3.py 602-650) -/

/-- A JSON value as far as `set_settings` distinguishes them
(`isinstance(value, bool)`). -/
inductive JVal where
  | jbool (b : Bool)
  | jstr (s : String)
  | jnum (n : Int)
deriving DecidableEq, Repr

/-- The stored value an update writes: `'1' if value else '0'` for a bool
(non-bools never reach the update in the whitelist branch). -/
def jvalStr : JVal → String
  | JVal.jbool b => if b then "1" else "0"
  | JVal.jstr s => s
  | JVal.jnum n => toString n

/-- `prefs.get(key)` over `{x.key: x.value for x in prefs}` for one user: a
Python dict comprehension keeps the last row per key. -/
def umLookup (db : DB) (uid : Nat) (key : String) : Option String :=
  ((db.userMetadata.filter (fun t => t.1 = uid ∧ t.2.1 = key)).map
    (fun t => t.2.2)).getLast?

/-- `get_settings()` (api3.py 602-615): the four reported booleans
(labrat, nostyles, nsfw, nochat); a missing row reads as false. -/
def get_settings (db : DB) (uid : Nat) : Bool × Bool × Bool × Bool :=
  (decide (umLookup db uid "labrat" = some "1"),
   decide (umLookup db uid "nostyles" = some "1"),
   decide (umLookup db uid "nsfw" = some "1"),
   decide (umLookup db uid "nochat" = some "1"))

/-- `UserMetadata.update(value=value).where((UserMetadata.key == sett) &
(UserMetadata.uid == uid))`: rewrites matching rows, inserts nothing. -/
def umUpdate (rows : List (Nat × String × String)) (uid : Nat) (sett value : String) :
    List (Nat × String × String) :=
  rows.map (fun t => if t.1 = uid ∧ t.2.1 = sett then (t.1, t.2.1, value) else t)

/-- The `[x.execute() for x in qrys]` loop: one update per submitted
setting, in order. -/
def umApply (uid : Nat) : List (String × JVal) → List (Nat × String × String) →
    List (Nat × String × String)
  | [], rows => rows
  | (sett, v) :: rest, rows => umApply uid rest (umUpdate rows uid sett (jvalStr v))

/-- The JSON response of `set_settings`. -/
inductive SettingsResult where
  | ok
  | err (code : Nat) (msg : String)
deriving DecidableEq, Repr

/-- The accepted settings keys (api3.py 633, 640). -/
def settingsWhitelist : List String := ["labrat", "nostyles", "nsfw", "nochat"]

/-- `set_settings()` (api3.py 618-650).  The queries are built during the
validation loop and executed only after it completes, so a type error on any
value leaves the store untouched. -/
def set_settings (db : DB) (uid : Nat) (isJson : Bool)
    (settings : Option (List (String × JVal))) : SettingsResult × DB :=
  if isJson = false then (SettingsResult.err 400 "Missing JSON in request", db)
  else
    match settings with
    | none => (SettingsResult.err 400 "Missing parameters", db)
    | some l =>
      if l = [] then (SettingsResult.err 400 "Missing parameters", db)
      else if (l.filter (fun p => ¬ p.1 ∈ settingsWhitelist)) ≠ [] then
        (SettingsResult.err 400 "Invalid setting options sent", db)
      else if l.any (fun p => match p.2 with | JVal.jbool _ => false | _ => true) then
        (SettingsResult.err 400 "Invalid type for setting", db)
      else
        (SettingsResult.ok, { db with userMetadata := umApply uid l db.userMetadata })

/-- `umApply` never changes the number of stored rows. -/
theorem umApply_length (uid : Nat) (l : List (String × JVal))
    (rows : List (Nat × String × String)) :
    (umApply uid l rows).length = rows.length := by
  induction l generalizing rows with
  | nil => rfl
  | cons p rest ih =>
      obtain ⟨sett, v⟩ := p
      simp [umApply, ih, umUpdate]

/-- Every row after `umApply` keeps the owner and key of a pre-existing
row. -/
theorem umApply_keys (uid : Nat) (l : List (String × JVal))
    (rows : List (Nat × String × String)) (t : Nat × String × String)
    (ht : t ∈ umApply uid l rows) :
    ∃ t' ∈ rows, t.1 = t'.1 ∧ t.2.1 = t'.2.1 := by
  induction l generalizing rows with
  | nil => exact ⟨t, ht, rfl, rfl⟩
  | cons p rest ih =>
      obtain ⟨sett, v⟩ := p
      obtain ⟨t', ht', h1, h2⟩ := ih (umUpdate rows uid sett (jvalStr v)) ht
      rw [umUpdate, List.mem_map] at ht'
      obtain ⟨t0, ht0, hft⟩ := ht'
      by_cases hc : t0.1 = uid ∧ t0.2.1 = sett
      · rw [if_pos hc] at hft
        exact ⟨t0, ht0, by rw [h1, ← hft], by rw [h2, ← hft]⟩
      · rw [if_neg hc] at hft
        exact ⟨t0, ht0, by rw [h1, hft], by rw [h2, hft]⟩

/-- C10: a valid settings request (non-empty, whitelisted keys, boolean
values) succeeds, preserves the number of stored metadata rows, and for any
(uid, key) with no stored row there is still no row afterwards — `UPDATE`
inserts nothing — so the stored value still reads as absent and a subsequent
GET reports the key (here labrat) as false. -/
theorem claim_C10 :
    ∀ (db : DB) (uid : Nat) (l : List (String × JVal)),
      l ≠ [] →
      l.filter (fun p => ¬ p.1 ∈ settingsWhitelist) = [] →
      (∀ p ∈ l, ∃ b, p.2 = JVal.jbool b) →
      (set_settings db uid true (some l)).1 = SettingsResult.ok ∧
      ((set_settings db uid true (some l)).2).userMetadata.length
        = db.userMetadata.length ∧
      (∀ key : String,
        db.userMetadata.filter (fun t => t.1 = uid ∧ t.2.1 = key) = [] →
        ((set_settings db uid true (some l)).2).userMetadata.filter
            (fun t => t.1 = uid ∧ t.2.1 = key) = [] ∧
        umLookup (set_settings db uid true (some l)).2 uid key = none) ∧
      (db.userMetadata.filter (fun t => t.1 = uid ∧ t.2.1 = "labrat") = [] →
        (get_settings (set_settings db uid true (some l)).2 uid).1 = false) := by
  intro db uid l hne hwl hbool
  have hnotype : l.any (fun p => match p.2 with | JVal.jbool _ => false | _ => true)
      = false := by
    rw [List.any_eq_false]
    intro p hp
    obtain ⟨b, hb⟩ := hbool p hp
    simp [hb]
  have hset : set_settings db uid true (some l)
      = (SettingsResult.ok, { db with userMetadata := umApply uid l db.userMetadata }) := by
    unfold set_settings
    rw [if_neg (by simp)]
    simp only []
    rw [if_neg (by simp [hne]), if_neg (by rw [hwl]; simp),
      if_neg (by simp [hnotype])]
  have hfilter : ∀ key : String,
      db.userMetadata.filter (fun t => t.1 = uid ∧ t.2.1 = key) = [] →
      (umApply uid l db.userMetadata).filter (fun t => t.1 = uid ∧ t.2.1 = key)
        = [] := by
    intro key hkey
    rw [List.filter_eq_nil_iff]
    intro t ht
    obtain ⟨t', ht', h1, h2⟩ := umApply_keys uid l db.userMetadata t ht
    rw [List.filter_eq_nil_iff] at hkey
    have := hkey t' ht'
    simp only [decide_eq_true_eq] at this ⊢
    intro hc
    exact this ⟨h1 ▸ hc.1, h2 ▸ hc.2⟩
  refine ⟨by rw [hset], by rw [hset]; exact umApply_length uid l db.userMetadata,
    ?_, ?_⟩
  · intro key hkey
    refine ⟨by rw [hset]; exact hfilter key hkey, ?_⟩
    rw [hset]
    simp only [umLookup]
    rw [hfilter key hkey]
    rfl
  · intro hlab
    rw [hset]
    simp only [get_settings, umLookup]
    simp only [hfilter "labrat" hlab]
    rfl

/-- Witness for C10: a user with one stored row (nsfw) submits
`{labrat: true, nsfw: true}`; the request succeeds, the row count stays 1,
no labrat row appears, and GET still reports labrat false. -/
theorem claim_C10_witness :
    ([("labrat", JVal.jbool true), ("nsfw", JVal.jbool true)] :
        List (String × JVal)) ≠ [] ∧
    (([("labrat", JVal.jbool true), ("nsfw", JVal.jbool true)] :
        List (String × JVal)).filter (fun p => ¬ p.1 ∈ settingsWhitelist) = []) ∧
    (let db : DB :=
      { users := [], subs := [], posts := [], comments := [], postVotes := [],
        commentVotes := [], subBans := [], userIgnores := [], messages := [],
        notifications := [], siteMetadata := [], subMetadata := [],
        userMetadata := [(7, "nsfw", "0")] };
     let l : List (String × JVal) :=
      [("labrat", JVal.jbool true), ("nsfw", JVal.jbool true)];
     (set_settings db 7 true (some l)).1 = SettingsResult.ok ∧
     ((set_settings db 7 true (some l)).2).userMetadata.length
        = db.userMetadata.length ∧
     ((set_settings db 7 true (some l)).2).userMetadata.filter
        (fun t => t.1 = 7 ∧ t.2.1 = "labrat") = [] ∧
     umLookup (set_settings db 7 true (some l)).2 7 "labrat" = none ∧
     (get_settings (set_settings db 7 true (some l)).2 7).1 = false) := by
  refine ⟨by decide, by decide, ?_⟩
  have h := claim_C10
    { users := [], subs := [], posts := [], comments := [], postVotes := [],
      commentVotes := [], subBans := [], userIgnores := [], messages := [],
      notifications := [], siteMetadata := [], subMetadata := [],
      userMetadata := [(7, "nsfw", "0")] }
    7 [("labrat", JVal.jbool true), ("nsfw", JVal.jbool true)]
    (by decide) (by decide)
    (by intro p hp
        simp only [List.mem_cons, List.not_mem_nil, or_false] at hp
        rcases hp with h | h <;> exact ⟨true, by rw [h]⟩)
  obtain ⟨hk, hl⟩ := h.2.2.1 "labrat" (by decide)
  exact ⟨h.1, h.2.1, hk, hl, h.2.2.2 (by decide)⟩

end Throat
